import Mathlib

/-!
Shallow embedding of the core of `rust-genai` (a unified multi-provider LLM
client), together with theorems settling the frozen claims about:

* the model-capability resolver (`src/adapter/model_capabilities.rs`),
* the GitHub Copilot streaming normalizer (`src/adapter/adapters/copilot/streamer.rs`),
* the model-listing operations (`all_models` in the OpenAI and DeepSeek adapters),
* the OpenAI request builder (`into_openai_request_parts`).

Rust values are embedded as plain Lean data: `Option` for `Option`, `Except`
for `Result`, `List` for `Vec`, a small `Json` inductive for
`serde_json::Value`.  External collaborators (the HTTP transport and serde's
parser/serializer) are passed in as explicit function arguments, so every
definition is executable.
-/

namespace RustGenai

/-- Model of `serde_json::Value`.  Objects keep their field order as a list of
pairs (serde's preserve-order feature); numbers are restricted to integers,
which covers everything the modelled code produces. -/
inductive Json where
  | null
  | bool (b : Bool)
  | num (n : Int)
  | str (s : String)
  | arr (elems : List Json)
  | obj (fields : List (String × Json))

/-- Rust `serde_json::Value` implements `Default` by returning `Value::Null`; this
is what `Option::<Value>::unwrap_or_default()` produces. -/
instance : Inhabited Json := ⟨Json.null⟩

/-- Model of Rust's `str::trim` (drops leading/trailing whitespace), defined on
the character list so it reduces in the kernel. -/
def rustTrim (s : String) : String :=
  String.mk (((s.data.dropWhile Char.isWhitespace).reverse.dropWhile Char.isWhitespace).reverse)

/-- Model of Rust's `str::starts_with(pattern)`, on character lists so it
reduces in the kernel. -/
def strStartsWith (s pat : String) : Bool :=
  pat.data.isPrefixOf s.data

/-- Substring search on character lists (helper for `strContains`). -/
def listContainsSub (pat : List Char) : List Char → Bool
  | [] => pat.isEmpty
  | c :: rest => pat.isPrefixOf (c :: rest) || listContainsSub pat rest

/-- Model of Rust's `str::contains(pattern)` for a literal pattern. -/
def strContains (s pat : String) : Bool :=
  listContainsSub pat.data s.data

-- region: model capability resolver (src/adapter/model_capabilities.rs)

/-- Rust `AdapterKind`: provider tags, one per supported provider (the exhaustive
match arms in `model_capabilities.rs` list all fourteen). -/
inductive AdapterKind where
  | OpenAI | OpenAIResp | Anthropic | Cohere | DeepSeek | Fireworks | Gemini
  | Groq | Together | Xai | Nebius | Ollama | Zai | Copilot
deriving DecidableEq, Repr

/-- Rust `Modality` from `src/common/model.rs`. -/
inductive Modality where
  | Text | Image | Audio | Video | Document
deriving DecidableEq, Repr

/-- Rust `ReasoningEffortType` from `src/common/model.rs`. -/
inductive ReasoningEffortType where
  | Low | Medium | High | Budget
deriving DecidableEq, Repr

/-- Rust `HashSet<Modality>` is modelled as a duplicate-free list; `insert` appends
only when absent (set semantics; iteration order is irrelevant to the claims). -/
def modalityInsert (s : List Modality) (m : Modality) : List Modality :=
  if s.contains m then s else s ++ [m]

/-- Rust `PROVIDER_PRIORITY` from `model_capabilities.rs` (fixed fallback order). -/
def PROVIDER_PRIORITY : List AdapterKind :=
  [.OpenAI, .Anthropic, .Cohere, .DeepSeek, .Gemini, .Groq, .Xai, .Nebius, .Ollama]

namespace ModelCapabilities

/-- Rust `openai_infer_token_limits` (the generic default table). -/
def openai_infer_token_limits (model_id : String) : Option Nat × Option Nat :=
  if strStartsWith model_id "gpt-4.1" then (some 128000, some 32768)
  else if strStartsWith model_id "gpt-4o" then (some 128000, some 16384)
  else if strStartsWith model_id "o3" then (some 200000, some 100000)
  else if strStartsWith model_id "o4" then (some 200000, some 256000)
  else if strStartsWith model_id "o1" then (some 200000, some 100000)
  else if strStartsWith model_id "gpt-4" && strContains model_id "32k" then (some 32768, some 32768)
  else if strStartsWith model_id "gpt-4" then (some 8192, some 4096)
  else if strStartsWith model_id "gpt-3.5" && strContains model_id "16k" then (some 16384, some 16384)
  else if strStartsWith model_id "gpt-3.5" then (some 4096, some 4096)
  else if strStartsWith model_id "chatgpt" then (some 16384, some 16384)
  else (some 4096, some 4096)

/-- Rust `openai_specific_token_limits`: same patterns but `None` when unrecognized. -/
def openai_specific_token_limits (model_id : String) : Option (Option Nat × Option Nat) :=
  if strStartsWith model_id "gpt-4.1" then some (some 128000, some 32768)
  else if strStartsWith model_id "gpt-4o" then some (some 128000, some 16384)
  else if strStartsWith model_id "o3" then some (some 200000, some 100000)
  else if strStartsWith model_id "o4" then some (some 200000, some 256000)
  else if strStartsWith model_id "o1" then some (some 200000, some 100000)
  else if strStartsWith model_id "gpt-4" && strContains model_id "32k" then some (some 32768, some 32768)
  else if strStartsWith model_id "gpt-4" then some (some 8192, some 4096)
  else if strStartsWith model_id "gpt-3.5" && strContains model_id "16k" then some (some 16384, some 16384)
  else if strStartsWith model_id "gpt-3.5" then some (some 4096, some 4096)
  else if strStartsWith model_id "chatgpt" then some (some 16384, some 16384)
  else none

/-- Rust `anthropic_token_limits`. -/
def anthropic_token_limits (model_id : String) : Option (Option Nat × Option Nat) :=
  if strContains model_id "claude-opus-4" then some (some 200000, some 32000)
  else if strContains model_id "claude-sonnet-4" then some (some 200000, some 64000)
  else if strContains model_id "claude-3-7-sonnet" then some (some 200000, some 8192)
  else if strContains model_id "claude-3-5-sonnet" then some (some 200000, some 8192)
  else if strContains model_id "claude-3-5-haiku" then some (some 200000, some 8192)
  else if strContains model_id "claude-3-opus" then some (some 200000, some 4096)
  else if strContains model_id "claude-3-sonnet" then some (some 200000, some 4096)
  else if strContains model_id "claude-3-haiku" then some (some 200000, some 4096)
  else if strContains model_id "claude-2.1" then some (some 200000, some 4096)
  else if strContains model_id "claude-2.0" then some (some 100000, some 4096)
  else if strContains model_id "claude-instant" then some (some 100000, some 4096)
  else none

/-- Rust `cohere_token_limits`. -/
def cohere_token_limits (model_id : String) : Option (Option Nat × Option Nat) :=
  if strContains model_id "aya-vision-32b" then some (some 128000, some 8192)
  else if strContains model_id "aya-vision-8b" then some (some 128000, some 4096)
  else if strContains model_id "aya-expanse-32b" then some (some 128000, some 8192)
  else if strContains model_id "aya-expanse-8b" then some (some 128000, some 4096)
  else if strContains model_id "command-a-vision" then some (some 128000, some 4096)
  else if strContains model_id "command-a" then some (some 128000, some 4096)
  else if strContains model_id "command-r-plus" then some (some 128000, some 4096)
  else if strContains model_id "command-r7b" then some (some 128000, some 4096)
  else if strContains model_id "command-r" then some (some 128000, some 4096)
  else if strContains model_id "command-light" then some (some 4096, some 4096)
  else if strContains model_id "command-nightly" then some (some 4096, some 4096)
  else if strContains model_id "command" then some (some 4096, some 4096)
  else none

/-- Rust `deepseek_token_limits`. -/
def deepseek_token_limits (model_id : String) : Option (Option Nat × Option Nat) :=
  if model_id == "deepseek-reasoner" then some (some 64000, some 8192)
  else if model_id == "deepseek-chat" then some (some 64000, some 8192)
  else none

/-- Rust `gemini_token_limits`. -/
def gemini_token_limits (model_id : String) : Option (Option Nat × Option Nat) :=
  if strContains model_id "gemini-2.5-pro" then some (some 2000000, some 32768)
  else if strContains model_id "gemini-2.5-flash" then some (some 1000000, some 16384)
  else if strContains model_id "gemini-2.5-flash-lite" then some (some 1000000, some 8192)
  else if strContains model_id "gemini-2.0-flash" then some (some 1000000, some 32768)
  else if strContains model_id "gemini-2.0-flash-lite" then some (some 1000000, some 16384)
  else if strContains model_id "gemini-2.0-flash-live" then some (some 1000000, some 8192)
  else if strContains model_id "gemini-1.5-pro" then some (some 2000000, some 8192)
  else if strContains model_id "gemini-1.5-flash" then some (some 1000000, some 8192)
  else if strContains model_id "gemini-1.0-pro" then some (some 30720, some 2048)
  else if strContains model_id "gemini-exp" then some (some 2000000, some 8192)
  else if strContains model_id "embedding" then some (some 2048, some 768)
  else none

/-- Rust `groq_token_limits`. -/
def groq_token_limits (model_id : String) : Option (Option Nat × Option Nat) :=
  if strContains model_id "moonshotai/kimi-k2-instruct" then some (some 131072, some 16384)
  else if strContains model_id "qwen/qwen3-32b" then some (some 128000, some 32768)
  else if strContains model_id "llama-3.3-70b-versatile" then some (some 128000, some 32768)
  else if strContains model_id "llama-3.1-8b-instant" then some (some 131072, some 131072)
  else if strContains model_id "gemma2-9b-it" then some (some 8192, some 8192)
  else if strContains model_id "meta-llama/llama-guard-4-12b" then some (some 131072, some 1024)
  else if strContains model_id "deepseek-r1-distill-llama-70b" then some (some 128000, some 32768)
  else if strContains model_id "meta-llama/llama-4-maverick-17b-128e-instruct" then some (some 131072, some 8192)
  else if strContains model_id "meta-llama/llama-4-scout-17b-16e-instruct" then some (some 131072, some 8192)
  else if strContains model_id "meta-llama/llama-prompt-guard-2" then some (some 512, some 512)
  else if strContains model_id "llama-3.1-405b-reasoning" then some (some 131072, some 32768)
  else if strContains model_id "llama-3.1-70b-versatile" then some (some 131072, some 32768)
  else if strContains model_id "llama-3.2-90b-vision" then some (some 131072, some 32768)
  else if strContains model_id "llama-3.2-11b-vision" then some (some 131072, some 16384)
  else if strContains model_id "llama-3.2-3b-preview" then some (some 131072, some 32768)
  else if strContains model_id "llama-3.2-1b-preview" then some (some 131072, some 32768)
  else if strContains model_id "mixtral-8x7b-32768" then some (some 32768, some 32768)
  else if strContains model_id "llama3-70b-8192" then some (some 8192, some 8192)
  else if strContains model_id "llama-guard-3-8b" then some (some 8192, some 8192)
  else if strContains model_id "gemma-7b-it" then some (some 8192, some 8192)
  else none

/-- Rust `xai_token_limits`. -/
def xai_token_limits (model_id : String) : Option (Option Nat × Option Nat) :=
  if model_id == "grok-4-0709" then some (some 256000, some 32768)
  else if model_id == "grok-3" then some (some 131072, some 32768)
  else if model_id == "grok-3-mini" then some (some 131072, some 16384)
  else if model_id == "grok-3-fast" then some (some 131072, some 32768)
  else if model_id == "grok-3-mini-fast" then some (some 131072, some 8192)
  else if model_id == "grok-2-vision-1212" then some (some 32768, some 8192)
  else if strContains model_id "grok-4" then some (some 256000, some 32768)
  else if strContains model_id "grok-3" then some (some 131072, some 32768)
  else if strContains model_id "grok" then some (some 131072, some 32768)
  else none

/-- Rust `nebius_token_limits` (broad defaults for every model id). -/
def nebius_token_limits (_model_id : String) : Option (Option Nat × Option Nat) :=
  some (some 128000, some 8192)

/-- Rust `ollama_token_limits` (rough defaults for every model id). -/
def ollama_token_limits (_model_id : String) : Option (Option Nat × Option Nat) :=
  some (some 32768, some 8192)

/-- Rust `zai_token_limits`. -/
def zai_token_limits (model_id : String) : Option (Option Nat × Option Nat) :=
  if model_id == "glm-4.5" then some (some 128000, some 32768)
  else if model_id == "glm-4.5-x" then some (some 128000, some 32768)
  else if model_id == "glm-4.5-air" then some (some 128000, some 16384)
  else if model_id == "glm-4.5-airx" then some (some 128000, some 16384)
  else if model_id == "glm-4.5-flash" then some (some 128000, some 8192)
  else if model_id == "glm-4-32b-0414-128k" then some (some 128000, some 32768)
  else if strStartsWith model_id "glm-4-plus" then some (some 128000, some 32768)
  else if strStartsWith model_id "glm-4-air" then some (some 128000, some 16384)
  else if strStartsWith model_id "glm-4-flash" then some (some 128000, some 8192)
  else if strStartsWith model_id "glm-4-long" then some (some 1000000, some 32768)
  else if strContains model_id "4v" then some (some 128000, some 16384)
  else if strStartsWith model_id "glm-z1" then some (some 128000, some 16384)
  else if strContains model_id "thinking" then some (some 128000, some 32768)
  else if strStartsWith model_id "glm-4" then some (some 128000, some 16384)
  else if strStartsWith model_id "glm" then some (some 128000, some 8192)
  else none

/-- Rust `openai_supports_streaming`. -/
def openai_supports_streaming (model_id : String) : Bool :=
  !strContains model_id "whisper" && !strContains model_id "tts" && !strContains model_id "dall-e"

/-- Rust `openai_supports_tool_calls`. -/
def openai_supports_tool_calls (model_id : String) : Bool :=
  strStartsWith model_id "gpt-4" || strStartsWith model_id "gpt-3.5" || strStartsWith model_id "o1"
    || strStartsWith model_id "o3" || strStartsWith model_id "o4" || strStartsWith model_id "chatgpt"

/-- Rust `openai_supports_json_mode`. -/
def openai_supports_json_mode (model_id : String) : Bool :=
  strStartsWith model_id "gpt-4" || strStartsWith model_id "gpt-3.5" || strStartsWith model_id "o1"
    || strStartsWith model_id "o3" || strStartsWith model_id "o4" || strStartsWith model_id "chatgpt"

/-- Rust `openai_supports_reasoning`. -/
def openai_supports_reasoning (model_id : String) : Bool :=
  strStartsWith model_id "o1" || strStartsWith model_id "o3" || strStartsWith model_id "o4"

/-- Rust `openai_infer_input_modalities`. -/
def openai_infer_input_modalities (model_id : String) : List Modality :=
  let modalities := modalityInsert [] .Text
  let modalities :=
    if strContains model_id "vision" || strStartsWith model_id "gpt-4o" || strStartsWith model_id "gpt-4.1"
        || strStartsWith model_id "o1" || strStartsWith model_id "o3" || strStartsWith model_id "o4" then
      modalityInsert modalities .Image
    else modalities
  if strContains model_id "audio" then modalityInsert modalities .Audio else modalities

/-- Rust `openai_infer_output_modalities`. -/
def openai_infer_output_modalities (model_id : String) : List Modality :=
  let modalities := modalityInsert [] .Text
  let modalities := if strContains model_id "tts" then modalityInsert modalities .Audio else modalities
  if strContains model_id "dall-e" then modalityInsert modalities .Image else modalities

/-- Rust `openai_infer_reasoning_efforts`. -/
def openai_infer_reasoning_efforts (model_id : String) : List ReasoningEffortType :=
  if strStartsWith model_id "o1" || strStartsWith model_id "o3" || strStartsWith model_id "o4" then
    [.Low, .Medium, .High, .Budget]
  else []

/-- Rust `cohere_supports_tool_calls`. -/
def cohere_supports_tool_calls (model_id : String) : Bool :=
  strContains model_id "command-r" || strContains model_id "command-a"
    || strContains model_id "command-nightly" || strContains model_id "aya-"

/-- Rust `cohere_supports_json_mode`. -/
def cohere_supports_json_mode (model_id : String) : Bool :=
  if strContains model_id "aya-" then true else !strContains model_id "command-light"

/-- Rust `deepseek_supports_tool_calls`. -/
def deepseek_supports_tool_calls (model_id : String) : Bool :=
  model_id == "deepseek-chat" || model_id == "deepseek-reasoner"

/-- Rust `deepseek_supports_json_mode`. -/
def deepseek_supports_json_mode (model_id : String) : Bool :=
  model_id == "deepseek-chat" || model_id == "deepseek-reasoner"

/-- Rust `provider_token_limits`. -/
def provider_token_limits (kind : AdapterKind) (model_id : String) :
    Option (Option Nat × Option Nat) :=
  match kind with
  | .OpenAI => openai_specific_token_limits model_id
  | .OpenAIResp => openai_specific_token_limits model_id
  | .Anthropic => anthropic_token_limits model_id
  | .Cohere => cohere_token_limits model_id
  | .Copilot => openai_specific_token_limits model_id
  | .DeepSeek => deepseek_token_limits model_id
  | .Fireworks => openai_specific_token_limits model_id
  | .Gemini => gemini_token_limits model_id
  | .Groq => groq_token_limits model_id
  | .Together => openai_specific_token_limits model_id
  | .Xai => xai_token_limits model_id
  | .Nebius => nebius_token_limits model_id
  | .Ollama => ollama_token_limits model_id
  | .Zai => zai_token_limits model_id

/-- Rust `provider_supports_streaming`. -/
def provider_supports_streaming (kind : AdapterKind) (model_id : String) : Option Bool :=
  match kind with
  | .OpenAI => some (openai_supports_streaming model_id)
  | .OpenAIResp => some (openai_supports_streaming model_id)
  | _ => some true

/-- Rust `provider_supports_json_mode`. -/
def provider_supports_json_mode (kind : AdapterKind) (model_id : String) : Option Bool :=
  match kind with
  | .OpenAI => some (openai_supports_json_mode model_id)
  | .OpenAIResp => some (openai_supports_json_mode model_id)
  | .Cohere => some (cohere_supports_json_mode model_id)
  | .DeepSeek => some (deepseek_supports_json_mode model_id)
  | .Anthropic | .Gemini => some false
  | _ => some true

/-- Rust `provider_supports_reasoning`. -/
def provider_supports_reasoning (kind : AdapterKind) (model_id : String) : Option Bool :=
  match kind with
  | .OpenAI => some (openai_supports_reasoning model_id)
  | .OpenAIResp => some (openai_supports_reasoning model_id)
  | .Anthropic => some (strContains model_id "claude-4" || strContains model_id "claude-opus-4"
      || strContains model_id "claude-sonnet-4")
  | .DeepSeek => some (strContains model_id "reasoner")
  | .Gemini => some (strContains model_id "thinking" || strContains model_id "2.5")
  | .Groq => some (strContains model_id "qwen3-32b")
  | .Xai => some (model_id == "grok-4-0709" || model_id == "grok-3-mini"
      || model_id == "grok-3-mini-fast")
  | .Zai => some (strContains model_id "glm-4.5" && !strContains model_id "air")
  | _ => none

/-- Rust `provider_input_modalities`. -/
def provider_input_modalities (kind : AdapterKind) (model_id : String) : Option (List Modality) :=
  match kind with
  | .Anthropic =>
    let s := [Modality.Text]
    some (if strContains model_id "claude-3" || strContains model_id "claude-4"
        || strContains model_id "claude-opus-4" || strContains model_id "claude-sonnet-4"
        || strContains model_id "claude-2.1" then modalityInsert s .Image else s)
  | .Cohere =>
    let s := [Modality.Text]
    some (if strContains model_id "vision" || strContains model_id "aya-vision" then
        modalityInsert s .Image else s)
  | .Gemini =>
    let s := [Modality.Text]
    let s := if !strContains model_id "embedding" && !strContains model_id "text-embedding" then
        modalityInsert s .Image else s
    some (if strContains model_id "2.0-flash-live" then modalityInsert s .Audio else s)
  | .Groq =>
    let s := [Modality.Text]
    some (if strContains model_id "vision" || strContains model_id "llama-3.2-90b"
        || strContains model_id "llama-3.2-11b" then modalityInsert s .Image else s)
  | .Xai =>
    let s := [Modality.Text]
    some (if model_id == "grok-4-0709" || strContains model_id "grok-2-vision-1212" then
        modalityInsert s .Image else s)
  | .Zai =>
    let s := [Modality.Text]
    some (if strContains model_id "4v" || strContains model_id "vision" then
        modalityInsert s .Image else s)
  | .OpenAI => some (openai_infer_input_modalities model_id)
  | _ => none

/-- Rust `provider_output_modalities`. -/
def provider_output_modalities (kind : AdapterKind) (model_id : String) : Option (List Modality) :=
  match kind with
  | .OpenAI => some (openai_infer_output_modalities model_id)
  | _ => none

/-- Rust `provider_reasoning_efforts`. -/
def provider_reasoning_efforts (kind : AdapterKind) (model_id : String) :
    Option (List ReasoningEffortType) :=
  match kind with
  | .OpenAI => some (openai_infer_reasoning_efforts model_id)
  | .Anthropic =>
    if strContains model_id "claude-4" || strContains model_id "claude-opus-4"
        || strContains model_id "claude-sonnet-4" then
      some [.Low, .Medium, .High, .Budget]
    else none
  | .Gemini | .DeepSeek => some [.Low, .Medium, .High, .Budget]
  | .Groq =>
    if strContains model_id "qwen3-32b" then some [.Low, .Medium, .High, .Budget] else none
  | .Xai =>
    if model_id == "grok-4-0709" || model_id == "grok-3-mini" || model_id == "grok-3-mini-fast" then
      some [.Low, .Medium, .High, .Budget]
    else none
  | .Zai =>
    if strContains model_id "glm-4.5" && !strContains model_id "air" then some [.High] else none
  | _ => none

/-- Loop body of the `provider_fallback!` macro: walk the priority list,
skipping the queried provider, and return the first rule hit. -/
def providerFallbackLoop {α : Type} (f : AdapterKind → String → Option α)
    (kind : AdapterKind) (model_id : String) : List AdapterKind → Option α
  | [] => none
  | k :: rest =>
    if k = kind then providerFallbackLoop f kind model_id rest
    else
      match f k model_id with
      | some v => some v
      | none => providerFallbackLoop f kind model_id rest

/-- The `provider_fallback!` macro from `model_capabilities.rs`: try the
queried provider's rule, then every other provider in `PROVIDER_PRIORITY`
order, and finally the supplied default. -/
def provider_fallback {α : Type} (f : AdapterKind → String → Option α)
    (kind : AdapterKind) (model_id : String) (dflt : α) : α :=
  match f kind model_id with
  | some v => v
  | none =>
    match providerFallbackLoop f kind model_id PROVIDER_PRIORITY with
    | some v => v
    | none => dflt

/-- Rust `ModelCapabilities::infer_token_limits`. -/
def infer_token_limits (kind : AdapterKind) (model_id : String) : Option Nat × Option Nat :=
  provider_fallback provider_token_limits kind model_id (openai_infer_token_limits model_id)

/-- Rust `ModelCapabilities::supports_streaming`. -/
def supports_streaming (kind : AdapterKind) (model_id : String) : Bool :=
  provider_fallback provider_supports_streaming kind model_id (openai_supports_streaming model_id)

/-- Rust `ModelCapabilities::supports_tool_calls` — note: a direct match on the
provider with no `provider_fallback!` use, unlike all other capabilities. -/
def supports_tool_calls (kind : AdapterKind) (model_id : String) : Bool :=
  match kind with
  | .OpenAI => openai_supports_tool_calls model_id
  | .Cohere => cohere_supports_tool_calls model_id
  | .DeepSeek => deepseek_supports_tool_calls model_id
  | _ => true

/-- Rust `ModelCapabilities::supports_json_mode`. -/
def supports_json_mode (kind : AdapterKind) (model_id : String) : Bool :=
  provider_fallback provider_supports_json_mode kind model_id (openai_supports_json_mode model_id)

/-- Rust `ModelCapabilities::supports_reasoning`. -/
def supports_reasoning (kind : AdapterKind) (model_id : String) : Bool :=
  provider_fallback provider_supports_reasoning kind model_id (openai_supports_reasoning model_id)

/-- Rust `ModelCapabilities::infer_input_modalities`. -/
def infer_input_modalities (kind : AdapterKind) (model_id : String) : List Modality :=
  provider_fallback provider_input_modalities kind model_id (openai_infer_input_modalities model_id)

/-- Rust `ModelCapabilities::infer_output_modalities`. -/
def infer_output_modalities (kind : AdapterKind) (model_id : String) : List Modality :=
  provider_fallback provider_output_modalities kind model_id (openai_infer_output_modalities model_id)

/-- Rust `ModelCapabilities::infer_reasoning_efforts`. -/
def infer_reasoning_efforts (kind : AdapterKind) (model_id : String) : List ReasoningEffortType :=
  provider_fallback provider_reasoning_efforts kind model_id (openai_infer_reasoning_efforts model_id)

/-- The fallback discipline exactly as the spec words it: consult the queried
provider's table, then each other provider in the fixed priority order
(skipping the queried one), then the generic default.  Stated with
`List.findSome?` so it can be compared with the macro translation above. -/
def fallbackChainSpec {α : Type} (f : AdapterKind → String → Option α)
    (kind : AdapterKind) (model_id : String) (dflt : α) : α :=
  ((kind :: PROVIDER_PRIORITY.filter (fun k => k ≠ kind)).findSome?
    (fun k => f k model_id)).getD dflt

/-- Spec-side per-provider tool-call rule table: the three providers that have
specific tool-call rules in the source (`OpenAI`, `Cohere`, `DeepSeek`); the
spec asserts other providers' queries consult these tables via the priority
chain. -/
def toolCallRuleTable (kind : AdapterKind) (model_id : String) : Option Bool :=
  match kind with
  | .OpenAI => some (openai_supports_tool_calls model_id)
  | .Cohere => some (cohere_supports_tool_calls model_id)
  | .DeepSeek => some (deepseek_supports_tool_calls model_id)
  | _ => none

/-- Tool-call support as the spec describes it (cross-provider fallback chain
over the per-provider tool-call tables, generic OpenAI default). -/
def supports_tool_calls_chainSpec (kind : AdapterKind) (model_id : String) : Bool :=
  fallbackChainSpec toolCallRuleTable kind model_id (openai_supports_tool_calls model_id)

end ModelCapabilities

-- region: Copilot streaming normalizer (src/adapter/adapters/copilot/streamer.rs)

/-- Rust `CopilotUsage` from `copilot/types.rs` (`u32` fields as `Nat`). -/
structure CopilotUsage where
  prompt_tokens : Nat
  completion_tokens : Nat
  total_tokens : Nat
deriving DecidableEq, Repr

/-- Rust `CopilotDeltaFunctionCall` from `copilot/types.rs`. -/
structure CopilotDeltaFunctionCall where
  name : Option String := none
  arguments : Option String := none
deriving DecidableEq, Repr

/-- Rust `CopilotDeltaToolCall` from `copilot/types.rs`. -/
structure CopilotDeltaToolCall where
  index : Nat := 0
  id : Option String := none
  tool_type : Option String := none
  function : Option CopilotDeltaFunctionCall := none
deriving DecidableEq, Repr

/-- Rust `CopilotDelta` from `copilot/types.rs`. -/
structure CopilotDelta where
  role : Option String := none
  content : Option String := none
  tool_calls : Option (List CopilotDeltaToolCall) := none
deriving DecidableEq, Repr

/-- Rust `CopilotStreamChoice` from `copilot/types.rs`. -/
structure CopilotStreamChoice where
  index : Nat := 0
  delta : CopilotDelta
  finish_reason : Option String := none
deriving DecidableEq, Repr

/-- Rust `CopilotStreamResponse` from `copilot/types.rs` (serde `#[serde(default)]`
fields carry the shown defaults). -/
structure CopilotStreamResponse where
  id : String := ""
  object : String := ""
  created : Nat := 0
  model : String := ""
  choices : List CopilotStreamChoice := []
  usage : Option CopilotUsage := none
deriving DecidableEq, Repr

/-- Rust's `as i32` cast of a `u32` value (wrap into the signed range). -/
def u32_as_i32 (n : Nat) : Int :=
  if n % 4294967296 < 2147483648 then ((n % 4294967296 : Nat) : Int)
  else ((n % 4294967296 : Nat) : Int) - 4294967296

/-- Rust `Usage` as the streamer populates it (`crate::chat::Usage` is not under
`src/`; the three token fields are the ones the Copilot streamer sets, the
rest stay at their `Default` of `None` and are omitted). -/
structure Usage where
  prompt_tokens : Option Int := none
  completion_tokens : Option Int := none
  total_tokens : Option Int := none
deriving DecidableEq, Repr

/-- Rust `ToolCall` (`crate::chat::ToolCall` is not under `src/`; fields as
constructed by the Copilot streamer and consumed by the OpenAI request
builder; `fn_arguments` is a `serde_json::Value`).  The always-`None`
`thought_signatures` field set by the streamer is omitted. -/
structure ToolCall where
  call_id : String
  fn_name : String
  fn_arguments : Json

/-- Rust `StreamerOptions` (from `adapters/support.rs`, not under `src/`): the
three capture flags the Copilot streamer reads. -/
structure StreamerOptions where
  capture_usage : Bool := false
  capture_content : Bool := false
  capture_tool_calls : Bool := false
deriving DecidableEq, Repr

/-- Rust `StreamerCapturedData` (from `adapters/support.rs`, not under `src/`):
the four accumulators the Copilot streamer reads and writes; `Default` is all
`None`. -/
structure StreamerCapturedData where
  usage : Option Usage := none
  content : Option String := none
  reasoning_content : Option String := none
  tool_calls : Option (List ToolCall) := none

/-- Rust `InterStreamEnd` as the Copilot streamer builds it (the always-`None`
`captured_thought_signatures` field is omitted). -/
structure InterStreamEnd where
  captured_usage : Option Usage := none
  captured_text_content : Option String := none
  captured_reasoning_content : Option String := none
  captured_tool_calls : Option (List ToolCall) := none

/-- Rust `InterStreamEvent`: the normalized stream event variants. -/
inductive InterStreamEvent where
  | start
  | chunk (text : String)
  | toolCallChunk (tc : ToolCall)
  | eventEnd (e : InterStreamEnd)

/-- The two `Error::Internal` cases the streamer produces, keyed by their
distinguishing payload (the offending frame data / transport error text). -/
inductive StreamError where
  | parseError (data : String)
  | transportError (msg : String)
deriving DecidableEq, Repr

/-- One item of the `Stream`: `Result<InterStreamEvent>`. -/
inductive StreamItem where
  | ok (event : InterStreamEvent)
  | err (e : StreamError)

/-- Transport events delivered by the SSE event source (`webc::Event`):
`Open`, `Message(data)` or an error; the end of the transport stream is the
end of the event list. -/
inductive TransportEvent where
  | openEvent
  | message (data : String)
  | error (msg : String)
deriving DecidableEq, Repr

/-- serde's behavior on this stream, supplied as explicit functions:
`parseResponse` models `from_str::<CopilotStreamResponse>` and `parseValue`
models `from_str::<serde_json::Value>` (both `None` on a parse failure). -/
structure ParseOracle where
  parseResponse : String → Option CopilotStreamResponse
  parseValue : String → Option Json

/-- Rust `CopilotStreamer` state (the `event_source` itself is the event list fed
to `runFrom`). -/
structure CopilotStreamer where
  options : StreamerOptions
  done : Bool := false
  captured_data : StreamerCapturedData := {}

/-- The tool-call loop of `poll_next` (streamer.rs lines 108-137): scan the
frame's fragments and build a `ToolCall` from the first fragment that has a
`function` with a `name` together with an `id`; arguments are parsed as JSON
and default to `Value::Null` (`unwrap_or_default`). -/
def findCompleteToolCall (parseValue : String → Option Json) :
    List CopilotDeltaToolCall → Option ToolCall
  | [] => none
  | dtc :: rest =>
    match dtc.function with
    | some fn =>
      match fn.name, dtc.id with
      | some name, some id =>
        some { call_id := id, fn_name := name,
               fn_arguments := (fn.arguments.bind parseValue).getD Json.null }
      | _, _ => findCompleteToolCall parseValue rest
    | none => findCompleteToolCall parseValue rest

/-- The `End` emission of `poll_next` (both the `[DONE]` arm and the
`finish_reason` arm): set `done`, `take()` the accumulators (gating usage on
`capture_usage`) and emit `InterStreamEvent::End`. -/
def makeEnd (st : CopilotStreamer) : CopilotStreamer × Option StreamItem :=
  let captured_usage := if st.options.capture_usage then st.captured_data.usage else none
  let inter_stream_end : InterStreamEnd :=
    { captured_usage := captured_usage
      captured_text_content := st.captured_data.content
      captured_reasoning_content := st.captured_data.reasoning_content
      captured_tool_calls := st.captured_data.tool_calls }
  ({ st with
      done := true
      captured_data :=
        { usage := if st.options.capture_usage then none else st.captured_data.usage
          content := none
          reasoning_content := none
          tool_calls := none } },
    some (.ok (.eventEnd inter_stream_end)))

/-- The tool-call capture block (streamer.rs lines 126-131): append the
completed call to the accumulator when `capture_tool_calls` is set. -/
def captureToolCall (st : CopilotStreamer) (tool_call : ToolCall) : CopilotStreamer :=
  if st.options.capture_tool_calls then
    { st with captured_data :=
        { st.captured_data with tool_calls :=
            match st.captured_data.tool_calls with
            | some calls => some (calls ++ [tool_call])
            | none => some [tool_call] } }
  else st

/-- The content capture block (streamer.rs lines 97-102): append the content
delta to the accumulator when `capture_content` is set. -/
def captureContent (st : CopilotStreamer) (content : String) : CopilotStreamer :=
  if st.options.capture_content then
    { st with captured_data :=
        { st.captured_data with content :=
            match st.captured_data.content with
            | some c => some (c ++ content)
            | none => some content } }
  else st

/-- The tool-call / finish_reason tail of the first choice's delta handling
(runs when the content branch did not emit). -/
def handleDelta (oracle : ParseOracle) (st : CopilotStreamer) (choice : CopilotStreamChoice) :
    CopilotStreamer × Option StreamItem :=
  match choice.delta.tool_calls.bind (findCompleteToolCall oracle.parseValue) with
  | some tool_call =>
    (captureToolCall st tool_call, some (.ok (.toolCallChunk tool_call)))
  | none =>
    if choice.finish_reason.isSome then makeEnd st
    else (st, none)

/-- The usage-capture block of `poll_next` (streamer.rs lines 78-87): when
`capture_usage` is set and the frame carries a usage object, overwrite the
accumulated usage. -/
def captureUsage (st : CopilotStreamer) (resp : CopilotStreamResponse) : CopilotStreamer :=
  if st.options.capture_usage then
    match resp.usage with
    | some u =>
      let newUsage : Usage :=
        { prompt_tokens := some (u32_as_i32 u.prompt_tokens)
          completion_tokens := some (u32_as_i32 u.completion_tokens)
          total_tokens := some (u32_as_i32 u.total_tokens) }
      { st with captured_data := { st.captured_data with usage := some newUsage } }
    | none => st
  else st

/-- The first-choice delta handling of `poll_next` (streamer.rs lines 90-156,
with `none` modelling the `continue` when `choices` is empty): a non-empty
content delta wins and emits `Chunk`, otherwise the tool-call / finish tail
runs. -/
def handleFirstChoice (oracle : ParseOracle) (st : CopilotStreamer) :
    Option CopilotStreamChoice → CopilotStreamer × Option StreamItem
  | none => (st, none)
  | some choice =>
    match choice.delta.content with
    | some content =>
      if content == "" then handleDelta oracle st choice
      else (captureContent st content, some (.ok (.chunk content)))
    | none => handleDelta oracle st choice

/-- Handling of a successfully deserialized frame: capture usage, then handle
the first choice's delta. -/
def handleResponse (oracle : ParseOracle) (st : CopilotStreamer)
    (resp : CopilotStreamResponse) : CopilotStreamer × Option StreamItem :=
  handleFirstChoice oracle (captureUsage st resp) resp.choices.head?

/-- One transport event through the body of `CopilotStreamer::poll_next`
(streamer.rs lines 40-167), returning the updated state and the emitted item,
if any.  `Event::Open` emits `Start`; a `Message` is checked for the
`"[DONE]"` marker, then deserialized (failure emits a decode error *without*
setting `done`); successful frames go through `handleResponse`. -/
def processEvent (oracle : ParseOracle) (st : CopilotStreamer) :
    TransportEvent → CopilotStreamer × Option StreamItem
  | .openEvent => (st, some (.ok .start))
  | .error msg => (st, some (.err (.transportError msg)))
  | .message data =>
    if rustTrim data == "[DONE]" then makeEnd st
    else
      match oracle.parseResponse data with
      | none => (st, some (.err (.parseError data)))
      | some resp => handleResponse oracle st resp

/-- Drive the streamer over a whole transport event list: each poll first
returns end-of-stream when `done` is set, otherwise consumes transport events
until one yields an item (`poll_next`'s `while let` loop). -/
def runFrom (oracle : ParseOracle) (st : CopilotStreamer) :
    List TransportEvent → List StreamItem
  | [] => []
  | ev :: rest =>
    if st.done then []
    else
      match processEvent oracle st ev with
      | (st', some item) => item :: runFrom oracle st' rest
      | (st', none) => runFrom oracle st' rest

/-- Fresh streamer as built by `CopilotStreamer::new`. -/
def initStreamer (options : StreamerOptions) : CopilotStreamer :=
  { options := options }

/-- Full run of a fresh streamer over a transport event list. -/
def run (oracle : ParseOracle) (options : StreamerOptions)
    (events : List TransportEvent) : List StreamItem :=
  runFrom oracle (initStreamer options) events

/-- A delta tool-call fragment carrying both a function name and a call id
(the condition under which the streamer emits a `ToolCallChunk`). -/
def fragComplete (dtc : CopilotDeltaToolCall) : Bool :=
  match dtc.function with
  | some fn => fn.name.isSome && dtc.id.isSome
  | none => false

/-- Whether the tool-call / finish tail of a delta reaches the `finish_reason`
arm (no complete tool-call fragment, and a finish reason present). -/
def deltaTerminal (oracle : ParseOracle) (choice : CopilotStreamChoice) : Bool :=
  (choice.delta.tool_calls.bind (findCompleteToolCall oracle.parseValue)).isNone
    && choice.finish_reason.isSome

/-- Whether handling a (possibly absent) first choice drives the streamer to
`Done`. -/
def choiceTerminal (oracle : ParseOracle) : Option CopilotStreamChoice → Bool
  | none => false
  | some choice =>
    match choice.delta.content with
    | some content =>
      if content == "" then deltaTerminal oracle choice else false
    | none => deltaTerminal oracle choice

/-- Whether a deserialized frame drives the streamer to `Done`. -/
def respTerminal (oracle : ParseOracle) (resp : CopilotStreamResponse) : Bool :=
  choiceTerminal oracle resp.choices.head?

/-- Frames that drive the streamer to `Done` (and emit `End`): the decision
depends only on the frame, never on the accumulated state. -/
def isTerminalFrame (oracle : ParseOracle) : TransportEvent → Bool
  | .openEvent => false
  | .error _ => false
  | .message data =>
    if rustTrim data == "[DONE]" then true
    else
      match oracle.parseResponse data with
      | none => false
      | some resp => respTerminal oracle resp

/-- Whether a stream item is the `Start` event. -/
def StreamItem.isStart : StreamItem → Bool
  | .ok .start => true
  | _ => false

/-- Whether a stream item is an `End` event. -/
def StreamItem.isEnd : StreamItem → Bool
  | .ok (.eventEnd _) => true
  | _ => false

-- region: concrete instances used by witnesses and counterexamples

/-- An oracle on which serde fails for every payload. -/
def trivOracle : ParseOracle :=
  { parseResponse := fun _ => none, parseValue := fun _ => none }

/-- A frame whose first choice's delta carries only a content string. -/
def respOfContent (content : String) : CopilotStreamResponse :=
  { choices := [{ delta := { content := some content } }] }

/-- A frame whose first choice carries only a finish reason. -/
def respFinish : CopilotStreamResponse :=
  { choices := [{ delta := {}, finish_reason := some "stop" }] }

/-- A frame whose first choice's delta carries a single tool-call fragment. -/
def respOfFragment (frag : CopilotDeltaToolCall) : CopilotStreamResponse :=
  { choices := [{ delta := { tool_calls := some [frag] } }] }

/-- A complete tool-call fragment (both a call id and a function name). -/
def fragFull9 : CopilotDeltaToolCall :=
  { id := some "call_9", function := some { name := some "g", arguments := none } }

/-- A complete fragment whose argument string is not valid JSON. -/
def fragFull1 : CopilotDeltaToolCall :=
  { id := some "call_1"
    function := some { name := some "search", arguments := some "not-json" } }

/-- A frame carrying a non-empty content delta together with a complete
tool-call fragment and a finish reason, all in the same first choice. -/
def respMixed : CopilotStreamResponse :=
  { choices := [{ delta := { content := some "Hi", tool_calls := some [fragFull9] }
                  finish_reason := some "stop" }] }

/-- A concrete serde oracle: a handful of payload strings deserialize to the
frames above, everything else fails; no argument string is valid JSON. -/
def streamOracle : ParseOracle :=
  { parseResponse := fun data =>
      if data == "hello" then some (respOfContent "Hello")
      else if data == "world" then some (respOfContent " world")
      else if data == "finish" then some respFinish
      else if data == "frag-id" then
        some (respOfFragment { id := some "call_1" })
      else if data == "frag-name" then
        some (respOfFragment { function := some { name := some "search" } })
      else if data == "frag-args" then
        some (respOfFragment { function := some { arguments := some "argstr" } })
      else if data == "frag-full" then some (respOfFragment fragFull1)
      else if data == "mixed" then some respMixed
      else none,
    parseValue := fun _ => none }

/-- Options with only content capture enabled. -/
def optsContent : StreamerOptions := { capture_content := true }

/-- Options with all three capture flags enabled. -/
def optsAll : StreamerOptions :=
  { capture_usage := true, capture_content := true, capture_tool_calls := true }

-- region: model listing (openai and deepseek adapter_impl.rs, all_models)

/-- The `Error` variants reached by the modelled code paths (`crate::Error` is
not under `src/`; the variants are those the adapters construct: a missing
credential from `get_api_key`, `Error::WebAdapterCall`, a `value_ext`
missing-property error from `x_take`, and
`Error::InvalidJsonResponseElement`). -/
inductive GenaiError where
  | credential (msg : String)
  | webAdapterCall (kind : AdapterKind) (msg : String)
  | jsonMissing (key : String)
  | invalidJsonResponseElement (info : String)

/-- Property lookup on a JSON object (helper for `xTake`). -/
def jsonLookup : List (String × Json) → String → Option Json
  | [], _ => none
  | (k, v) :: rest, key => if k == key then some v else jsonLookup rest key

/-- Rust `value_ext::x_take::<Value>(key)`: the value at `key`, or a missing-key
error.  (The source also removes the key; no modelled path reads a key
twice, so the removal is omitted.) -/
def Json.xTake (j : Json) (key : String) : Except GenaiError Json :=
  match j with
  | .obj fields =>
    match jsonLookup fields key with
    | some v => .ok v
    | none => .error (.jsonMissing key)
  | _ => .error (.jsonMissing key)

/-- Rust `value_ext::x_take::<String>(key)`. -/
def Json.xTakeString (j : Json) (key : String) : Except GenaiError String :=
  match j.xTake key with
  | .ok (.str s) => .ok s
  | .ok _ => .error (.jsonMissing key)
  | .error e => .error e

/-- Rust `Model` from `src/common/model.rs` (`ModelName` is a string newtype;
`HashSet`s are duplicate-free lists). -/
structure Model where
  name : String
  id : String
  max_input_tokens : Option Nat := none
  max_output_tokens : Option Nat := none
  supported_input_modalities : List Modality := [Modality.Text]
  supported_output_modalities : List Modality := [Modality.Text]
  supports_reasoning : Bool := false
  supported_reasoning_efforts : Option (List ReasoningEffortType) := none
  supports_tool_calls : Bool := false
  supports_streaming : Bool := false
  supports_json_mode : Bool := false
  additional_properties : Option Json := none

/-- Rust `Model::new` (model.rs lines 84-102). -/
def Model.new (name id : String) : Model :=
  { name := name, id := id }

/-- Rust `Model::with_max_input_tokens`. -/
def Model.with_max_input_tokens (m : Model) (tokens : Option Nat) : Model :=
  { m with max_input_tokens := tokens }

/-- Rust `Model::with_max_output_tokens`. -/
def Model.with_max_output_tokens (m : Model) (tokens : Option Nat) : Model :=
  { m with max_output_tokens := tokens }

/-- Rust `Model::with_input_modalities`. -/
def Model.with_input_modalities (m : Model) (modalities : List Modality) : Model :=
  { m with supported_input_modalities := modalities }

/-- Rust `Model::with_output_modalities`. -/
def Model.with_output_modalities (m : Model) (modalities : List Modality) : Model :=
  { m with supported_output_modalities := modalities }

/-- Rust `Model::with_reasoning` (clears the effort set when support is off). -/
def Model.with_reasoning (m : Model) (supports : Bool) : Model :=
  if supports then { m with supports_reasoning := supports }
  else { m with supports_reasoning := supports, supported_reasoning_efforts := none }

/-- Rust `Model::with_reasoning_efforts` (implies reasoning support). -/
def Model.with_reasoning_efforts (m : Model) (efforts : List ReasoningEffortType) : Model :=
  { m with supported_reasoning_efforts := some efforts, supports_reasoning := true }

/-- Rust `Model::with_tool_calls`. -/
def Model.with_tool_calls (m : Model) (supports : Bool) : Model :=
  { m with supports_tool_calls := supports }

/-- Rust `Model::with_streaming`. -/
def Model.with_streaming (m : Model) (supports : Bool) : Model :=
  { m with supports_streaming := supports }

/-- Rust `Model::with_json_mode`. -/
def Model.with_json_mode (m : Model) (supports : Bool) : Model :=
  { m with supports_json_mode := supports }

/-- The OpenAI adapter's static `MODELS` table. -/
def OPENAI_MODELS : List String :=
  ["gpt-4.1", "gpt-4.1-mini", "gpt-4.1-nano", "o4-mini", "gpt-4o", "gpt-4o-mini", "o3-mini"]

/-- The DeepSeek adapter's static `MODELS` table. -/
def DEEPSEEK_MODELS : List String := ["deepseek-chat", "deepseek-reasoner"]

/-- Rust `OpenAIAdapter::parse_openai_model_to_model` (openai/adapter_impl.rs
lines 41-84): decorate the id with capability-derived facts.  The `created` /
`owned_by` takes are `.ok()`-swallowed in the source and read nothing else,
so `model_data` is unused beyond them. -/
def parse_openai_model_to_model (model_id : String) (_model_data : Json) :
    Except GenaiError Model :=
  let model := Model.new model_id model_id
  let limits := ModelCapabilities.infer_token_limits .OpenAI model_id
  let model := (model.with_max_input_tokens limits.1).with_max_output_tokens limits.2
  let supports_reasoning := ModelCapabilities.supports_reasoning .OpenAI model_id
  let model :=
    (((model.with_streaming (ModelCapabilities.supports_streaming .OpenAI model_id)).with_tool_calls
        (ModelCapabilities.supports_tool_calls .OpenAI model_id)).with_json_mode
        (ModelCapabilities.supports_json_mode .OpenAI model_id)).with_reasoning supports_reasoning
  let model :=
    (model.with_input_modalities
        (ModelCapabilities.infer_input_modalities .OpenAI model_id)).with_output_modalities
        (ModelCapabilities.infer_output_modalities .OpenAI model_id)
  let model :=
    if supports_reasoning then
      model.with_reasoning_efforts (ModelCapabilities.infer_reasoning_efforts .OpenAI model_id)
    else model
  .ok model

/-- Rust `OpenAIAdapter::all_models` (openai/adapter_impl.rs lines 149-190).  The
two collaborator outcomes are passed in: `api_key` is the result of
`get_api_key`, `web_body` the result of `web_client.do_get` (its error text
is wrapped into `Error::WebAdapterCall`).  Every failure — auth, transport,
missing `data` key, malformed entry — propagates via `?`; a present but
non-array `data` yields an empty list.  There is no fallback to the static
table. -/
def openai_all_models (kind : AdapterKind) (api_key : Except GenaiError String)
    (web_body : Except String Json) : Except GenaiError (List Model) :=
  match api_key with
  | .error e => .error e
  | .ok _ =>
    match web_body with
    | .error e => .error (.webAdapterCall kind e)
    | .ok body =>
      match body.xTake "data" with
      | .error e => .error e
      | .ok (.arr models_data) =>
        models_data.mapM (fun model_data =>
          (model_data.xTakeString "id").bind
            (fun model_id => parse_openai_model_to_model model_id model_data))
      | .ok _ => .ok []

/-- Rust `DeepSeekAdapter::parse_models_response` (deepseek/adapter_impl.rs lines
165-186): take the `data` array, keep entries whose `id` is a known DeepSeek
chat model, and error out when none remain (triggering the caller's
fallback). -/
def parse_models_response (body : Json) : Except GenaiError (List String) :=
  match body.xTake "data" with
  | .error e => .error e
  | .ok (.arr models_array) =>
    let model_ids := models_array.filterMap (fun model_data =>
      match model_data.xTakeString "id" with
      | .ok model_id =>
        if model_id == "deepseek-chat" || model_id == "deepseek-reasoner" then some model_id
        else none
      | .error _ => none)
    if model_ids.isEmpty then
      .error (.invalidJsonResponseElement "No valid DeepSeek models found in API response")
    else .ok model_ids
  | .ok _ => .error (.jsonMissing "data")

/-- The per-id `Model` decoration of `DeepSeekAdapter::all_models`
(deepseek/adapter_impl.rs lines 77-107). -/
def deepseek_build_model (model_id : String) : Model :=
  let model := Model.new model_id model_id
  let limits := ModelCapabilities.infer_token_limits .DeepSeek model_id
  let supports_reasoning := ModelCapabilities.supports_reasoning .DeepSeek model_id
  let model :=
    ((((model.with_max_input_tokens limits.1).with_max_output_tokens
        limits.2).with_streaming
        (ModelCapabilities.supports_streaming .DeepSeek model_id)).with_tool_calls
        (ModelCapabilities.supports_tool_calls .DeepSeek model_id)).with_json_mode
        (ModelCapabilities.supports_json_mode .DeepSeek model_id)
  let model := model.with_reasoning supports_reasoning
  let model :=
    (model.with_input_modalities
        (ModelCapabilities.infer_input_modalities .DeepSeek model_id)).with_output_modalities
        (ModelCapabilities.infer_output_modalities .DeepSeek model_id)
  let model :=
    if supports_reasoning then
      model.with_reasoning_efforts (ModelCapabilities.infer_reasoning_efforts .DeepSeek model_id)
    else model
  model

/-- Rust `DeepSeekAdapter::all_models` (deepseek/adapter_impl.rs lines 38-111):
auth and transport failures propagate via `?`, but a failing
`parse_models_response` falls back to the static `MODELS` table. -/
def deepseek_all_models (kind : AdapterKind) (api_key : Except GenaiError String)
    (web_body : Except String Json) : Except GenaiError (List Model) :=
  match api_key with
  | .error e => .error e
  | .ok _ =>
    match web_body with
    | .error e => .error (.webAdapterCall kind e)
    | .ok body =>
      let model_ids :=
        match parse_models_response body with
        | .ok api_models => api_models
        | .error _ => DEEPSEEK_MODELS
      .ok (model_ids.map deepseek_build_model)

-- region: OpenAI request building (openai/adapter_impl.rs, into_openai_request_parts)

/-- Rust `ImageSource` (`crate::chat` is not under `src/`; variants as consumed by
`into_openai_request_parts`). -/
inductive ImageSource where
  | url (url : String)
  | base64 (content : String)

/-- Rust `ContentPart` as matched by the OpenAI request builder (text or image). -/
inductive OAContentPart where
  | text (text : String)
  | image (content_type : String) (source : ImageSource)

/-- Rust `ToolResponse` (`crate::chat` is not under `src/`; the two fields the
adapters read). -/
structure ToolResponse where
  call_id : String
  content : String

/-- Rust `MessageContent` as matched by the OpenAI request builder. -/
inductive MessageContent where
  | text (content : String)
  | parts (ps : List OAContentPart)
  | toolCalls (tool_calls : List ToolCall)
  | toolResponses (tool_responses : List ToolResponse)

/-- Rust `ChatRole` (`crate::chat`): the four roles matched by the builders. -/
inductive ChatRole where
  | system | user | assistant | tool

/-- One chat message: a role-tagged content. -/
structure ChatMessage where
  role : ChatRole
  content : MessageContent

/-- Rust `Tool` as serialized by the OpenAI request builder. -/
structure OATool where
  name : String
  description : Option String := none
  schema : Option Json := none

/-- Rust `ChatRequest` as consumed by `into_openai_request_parts`. -/
structure ChatRequest where
  system : Option String := none
  messages : List ChatMessage := []
  tools : Option (List OATool) := none

/-- Rust `OpenAIRequestParts`. -/
structure OpenAIRequestParts where
  messages : List Json
  tools : Option (List Json)

/-- The `json!` framing of one user content part. -/
def contentPartJson (part : OAContentPart) : Json :=
  match part with
  | .text text => Json.obj [("type", .str "text"), ("text", .str text)]
  | .image content_type source =>
    match source with
    | .url url =>
      Json.obj [("type", .str "image_url"), ("image_url", Json.obj [("url", .str url)])]
    | .base64 content =>
      let image_url := "data:" ++ content_type ++ ";base64," ++ content
      Json.obj [("type", .str "image_url"), ("image_url", Json.obj [("url", .str image_url)])]

/-- The `json!` framing of one assistant tool call; `render` models
`serde_json::Value::to_string` on the arguments. -/
def toolCallJson (render : Json → String) (tool_call : ToolCall) : Json :=
  Json.obj [("type", .str "function"), ("id", .str tool_call.call_id),
    ("function", Json.obj [("name", .str tool_call.fn_name),
                           ("arguments", .str (render tool_call.fn_arguments))])]

/-- The per-message arm of `into_openai_request_parts` (openai/adapter_impl.rs
lines 501-582): returns the zero or more payload messages this chat message
contributes.  User-role tool calls / tool responses hit the `continue` arms,
assistant-role parts / tool responses hit the `()` arms, tool-role
non-tool-response content falls through — all contribute nothing, and the
source has no logging statement in any of those arms (only `TODO` comments). -/
def messageJson (render : Json → String) (msg : ChatMessage) : List Json :=
  match msg.role with
  | .system =>
    match msg.content with
    | .text content => [Json.obj [("role", .str "system"), ("content", .str content)]]
    | _ => []
  | .user =>
    match msg.content with
    | .text content => [Json.obj [("role", .str "user"), ("content", .str content)]]
    | .parts parts =>
      [Json.obj [("role", .str "user"), ("content", Json.arr (parts.map contentPartJson))]]
    | .toolCalls _ => []
    | .toolResponses _ => []
  | .assistant =>
    match msg.content with
    | .text content => [Json.obj [("role", .str "assistant"), ("content", .str content)]]
    | .toolCalls tool_calls =>
      [Json.obj [("role", .str "assistant"),
                 ("tool_calls", Json.arr (tool_calls.map (toolCallJson render))),
                 ("content", .str "")]]
    | .parts _ => []
    | .toolResponses _ => []
  | .tool =>
    match msg.content with
    | .toolResponses tool_responses =>
      tool_responses.map (fun tool_response =>
        Json.obj [("role", .str "tool"), ("content", .str tool_response.content),
                  ("tool_call_id", .str tool_response.call_id)])
    | _ => []

/-- The `json!` framing of one declared tool (openai/adapter_impl.rs lines
585-605); `Option` fields serialize as JSON null when absent. -/
def toolJson (tool : OATool) : Json :=
  Json.obj [("type", .str "function"),
    ("function", Json.obj [("name", .str tool.name),
      ("description", match tool.description with | some d => Json.str d | none => Json.null),
      ("parameters", tool.schema.getD Json.null),
      ("strict", .bool false)])]

/-- Rust `OpenAIAdapter::into_openai_request_parts` (openai/adapter_impl.rs lines
492-608).  The second component is the trace of log records the call emits:
the source contains no logging call anywhere in this function (only `TODO`
comments in the dropping arms), so the trace is always empty. -/
def into_openai_request_parts (render : Json → String) (chat_req : ChatRequest) :
    OpenAIRequestParts × List String :=
  let system_messages : List Json :=
    match chat_req.system with
    | some system_msg => [Json.obj [("role", .str "system"), ("content", .str system_msg)]]
    | none => []
  let messages := system_messages ++ (chat_req.messages.map (messageJson render)).flatten
  let tools := chat_req.tools.map (fun tools => tools.map toolJson)
  ({ messages := messages, tools := tools }, [])

/-- A user-role message whose content is a single tool call (for C9). -/
def c9UserToolCallMsg : ChatMessage :=
  { role := .user
    content := .toolCalls [{ call_id := "call_1", fn_name := "search",
                             fn_arguments := Json.obj [] }] }

-- region: theorems (shared helper lemmas first, then the claim theorems)

open ModelCapabilities

/-- The macro loop is `findSome?` over the priority list with the queried
provider filtered out. -/
theorem providerFallbackLoop_eq_findSome {α : Type} (f : AdapterKind → String → Option α)
    (kind : AdapterKind) (model_id : String) (l : List AdapterKind) :
    providerFallbackLoop f kind model_id l
      = (l.filter (fun k => k ≠ kind)).findSome? (fun k => f k model_id) := by
  induction l with
  | nil => rfl
  | cons k rest ih =>
    by_cases h : k = kind
    · simp [providerFallbackLoop, h, ih]
    · have hfilter : (k :: rest).filter (fun k => k ≠ kind)
          = k :: rest.filter (fun k => k ≠ kind) := by
        simp [List.filter_cons, h]
      rw [hfilter, List.findSome?_cons]
      unfold providerFallbackLoop
      rw [if_neg h]
      cases f k model_id <;> simp [ih]

/-- Rust `provider_fallback!` implements exactly the spec's chain semantics. -/
theorem provider_fallback_eq_chainSpec {α : Type} (f : AdapterKind → String → Option α)
    (kind : AdapterKind) (model_id : String) (dflt : α) :
    provider_fallback f kind model_id dflt = fallbackChainSpec f kind model_id dflt := by
  unfold provider_fallback fallbackChainSpec
  rw [List.findSome?_cons]
  cases hk : f kind model_id with
  | some v => simp
  | none =>
    rw [providerFallbackLoop_eq_findSome]
    cases (PROVIDER_PRIORITY.filter (fun k => k ≠ kind)).findSome? (fun k => f k model_id) <;>
      simp

/-- A hit in the fallback loop comes from some provider's rule table. -/
theorem providerFallbackLoop_some {α : Type} {f : AdapterKind → String → Option α}
    {kind : AdapterKind} {model_id : String} {l : List AdapterKind} {v : α}
    (h : providerFallbackLoop f kind model_id l = some v) : ∃ k, f k model_id = some v := by
  induction l with
  | nil => simp [providerFallbackLoop] at h
  | cons k rest ih =>
    unfold providerFallbackLoop at h
    by_cases hk : k = kind
    · exact ih (by simpa [hk] using h)
    · rw [if_neg hk] at h
      cases hf : f k model_id with
      | some w => rw [hf] at h; exact ⟨k, by simpa using h.symm ▸ hf⟩
      | none => rw [hf] at h; exact ih h

/-- The fallback chain is total: its value is either produced by some
provider's rule table or it is the supplied default. -/
theorem provider_fallback_total {α : Type} (f : AdapterKind → String → Option α)
    (kind : AdapterKind) (model_id : String) (dflt : α) :
    (∃ k, f k model_id = some (provider_fallback f kind model_id dflt))
      ∨ provider_fallback f kind model_id dflt = dflt := by
  unfold provider_fallback
  cases hk : f kind model_id with
  | some v => exact .inl ⟨kind, by simp [hk]⟩
  | none =>
    cases hl : providerFallbackLoop f kind model_id PROVIDER_PRIORITY with
    | some v =>
      obtain ⟨k, hk'⟩ := providerFallbackLoop_some hl
      exact .inl ⟨k, by simpa using hk'⟩
    | none => exact .inr rfl

/-- Once `done` is set, a poll never yields another item. -/
theorem runFrom_done (oracle : ParseOracle) (st : CopilotStreamer)
    (evs : List TransportEvent) (h : st.done = true) : runFrom oracle st evs = [] := by
  cases evs with
  | nil => rfl
  | cons ev rest => simp [runFrom, h]

/-- Rust `captureUsage` touches only the usage accumulator. -/
theorem captureUsage_done (st : CopilotStreamer) (resp : CopilotStreamResponse) :
    (captureUsage st resp).done = st.done := by
  unfold captureUsage
  split
  · split <;> rfl
  · rfl

/-- Rust `captureToolCall` touches only the tool-call accumulator. -/
theorem captureToolCall_done (st : CopilotStreamer) (tc : ToolCall) :
    (captureToolCall st tc).done = st.done := by
  unfold captureToolCall
  split <;> rfl

/-- Rust `captureContent` touches only the content accumulator. -/
theorem captureContent_done (st : CopilotStreamer) (content : String) :
    (captureContent st content).done = st.done := by
  unfold captureContent
  split <;> rfl

/-- Classification of `handleDelta`: whether it terminates the stream and
what kind of item it emits. -/
theorem handleDelta_classify (oracle : ParseOracle) (st : CopilotStreamer)
    (choice : CopilotStreamChoice) :
    ((handleDelta oracle st choice).1.done
        = (deltaTerminal oracle choice || st.done)) ∧
    (deltaTerminal oracle choice = true →
      ∃ e, (handleDelta oracle st choice).2 = some (.ok (.eventEnd e))) ∧
    (deltaTerminal oracle choice = false →
      ∀ item, (handleDelta oracle st choice).2 = some item → item.isEnd = false) ∧
    (∀ item, (handleDelta oracle st choice).2 = some item → item.isStart = false) := by
  unfold handleDelta deltaTerminal
  cases hbind : choice.delta.tool_calls.bind (findCompleteToolCall oracle.parseValue) with
  | some tc =>
    refine ⟨by simp [captureToolCall_done], by simp, ?_, ?_⟩
    · intro _ item hitem
      cases hitem; rfl
    · intro item hitem
      cases hitem; rfl
  | none =>
    cases hfin : choice.finish_reason with
    | some r =>
      refine ⟨by simp [makeEnd], fun _ => ⟨_, rfl⟩, by simp, ?_⟩
      intro item hitem
      cases hitem; rfl
    | none => exact ⟨by simp, by simp, by simp [StreamItem.isEnd], by simp⟩

/-- Classification of `handleFirstChoice`. -/
theorem handleFirstChoice_classify (oracle : ParseOracle) (st : CopilotStreamer)
    (oc : Option CopilotStreamChoice) :
    ((handleFirstChoice oracle st oc).1.done = (choiceTerminal oracle oc || st.done)) ∧
    (choiceTerminal oracle oc = true →
      ∃ e, (handleFirstChoice oracle st oc).2 = some (.ok (.eventEnd e))) ∧
    (choiceTerminal oracle oc = false →
      ∀ item, (handleFirstChoice oracle st oc).2 = some item → item.isEnd = false) ∧
    (∀ item, (handleFirstChoice oracle st oc).2 = some item → item.isStart = false) := by
  cases oc with
  | none => simp [handleFirstChoice, choiceTerminal]
  | some choice =>
    cases hcontent : choice.delta.content with
    | none =>
      simp only [handleFirstChoice, choiceTerminal, hcontent]
      exact handleDelta_classify oracle st choice
    | some content =>
      simp only [handleFirstChoice, choiceTerminal, hcontent]
      by_cases hempty : content == ""
      · simp only [if_pos hempty]
        exact handleDelta_classify oracle st choice
      · simp only [if_neg hempty]
        refine ⟨by simp [captureContent_done], by simp, ?_, ?_⟩
        · intro _ item hitem
          cases hitem; rfl
        · intro item hitem
          cases hitem; rfl

/-- Classification of `handleResponse`. -/
theorem handleResponse_classify (oracle : ParseOracle) (st : CopilotStreamer)
    (resp : CopilotStreamResponse) :
    ((handleResponse oracle st resp).1.done = (respTerminal oracle resp || st.done)) ∧
    (respTerminal oracle resp = true →
      ∃ e, (handleResponse oracle st resp).2 = some (.ok (.eventEnd e))) ∧
    (respTerminal oracle resp = false →
      ∀ item, (handleResponse oracle st resp).2 = some item → item.isEnd = false) ∧
    (∀ item, (handleResponse oracle st resp).2 = some item → item.isStart = false) := by
  unfold handleResponse respTerminal
  have h := handleFirstChoice_classify oracle (captureUsage st resp) resp.choices.head?
  rw [captureUsage_done] at h
  exact h

/-- Classification of one `poll_next` step. -/
theorem processEvent_classify (oracle : ParseOracle) (st : CopilotStreamer)
    (ev : TransportEvent) (h : st.done = false) :
    ((processEvent oracle st ev).1.done = isTerminalFrame oracle ev) ∧
    (isTerminalFrame oracle ev = true →
      ∃ e, (processEvent oracle st ev).2 = some (.ok (.eventEnd e))) ∧
    (isTerminalFrame oracle ev = false →
      ∀ item, (processEvent oracle st ev).2 = some item → item.isEnd = false) ∧
    (∀ item, (processEvent oracle st ev).2 = some item →
      item.isStart = true → ev = .openEvent) := by
  cases ev with
  | openEvent =>
    exact ⟨h, by simp [isTerminalFrame], by simp [processEvent, StreamItem.isEnd],
      fun item hi _ => rfl⟩
  | error msg =>
    refine ⟨h, by simp [isTerminalFrame], ?_, ?_⟩
    · intro _ item hitem
      cases hitem; rfl
    · intro item hitem
      cases hitem
      simp [StreamItem.isStart]
  | message data =>
    simp only [processEvent, isTerminalFrame]
    cases hdone : (rustTrim data == "[DONE]") with
    | true =>
      simp only [if_pos rfl]
      refine ⟨by simp [makeEnd], fun _ => ⟨_, rfl⟩, by simp, ?_⟩
      intro item hitem
      cases hitem
      intro hstart
      simp [StreamItem.isStart] at hstart
    | false =>
      simp only [Bool.false_eq_true, if_false]
      cases hparse : oracle.parseResponse data with
      | none =>
        refine ⟨h, by simp, ?_, ?_⟩
        · intro _ item hitem
          cases hitem; rfl
        · intro item hitem
          cases hitem
          simp [StreamItem.isStart]
      | some resp =>
        have hr := handleResponse_classify oracle st resp
        refine ⟨by rw [hr.1, h, Bool.or_false], hr.2.1, hr.2.2.1, ?_⟩
        intro item hitem hstart
        exact absurd (hr.2.2.2 item hitem) (by simp [hstart])

/-- A run over frames with no `Open` and no terminal frame emits neither
`Start` nor `End`. -/
theorem runFrom_no_terminal (oracle : ParseOracle) (st : CopilotStreamer)
    (evs : List TransportEvent) (hdone : st.done = false)
    (hopen : TransportEvent.openEvent ∉ evs)
    (hterm : ∀ ev ∈ evs, isTerminalFrame oracle ev = false) :
    ∀ item ∈ runFrom oracle st evs, item.isStart = false ∧ item.isEnd = false := by
  induction evs generalizing st with
  | nil => simp [runFrom]
  | cons ev rest ih =>
    have hopen' : TransportEvent.openEvent ∉ rest := fun hm => hopen (List.mem_cons_of_mem _ hm)
    have hne : ev ≠ TransportEvent.openEvent := fun he => hopen (he ▸ List.mem_cons_self _ _)
    have hevterm : isTerminalFrame oracle ev = false := hterm ev (List.mem_cons_self _ _)
    have hterm' : ∀ e ∈ rest, isTerminalFrame oracle e = false :=
      fun e he => hterm e (List.mem_cons_of_mem _ he)
    obtain ⟨hd, _, hnoend, hstart⟩ := processEvent_classify oracle st ev hdone
    intro item hitem
    simp only [runFrom, hdone, Bool.false_eq_true, if_false] at hitem
    cases hpe : processEvent oracle st ev with
    | mk st' out =>
      rw [hpe] at hitem hd hnoend hstart
      have hst' : st'.done = false := by
        simpa [hevterm] using hd
      cases out with
      | none => exact ih st' hst' hopen' hterm' item hitem
      | some it =>
        rcases List.mem_cons.mp hitem with rfl | hmem
        · refine ⟨?_, hnoend hevterm item rfl⟩
          cases hs : item.isStart
          · rfl
          · exact absurd (hstart item rfl hs) hne
        · exact ih st' hst' hopen' hterm' item hmem

/-- A run over frames with no `Open` but containing a terminal frame emits a
single trailing `End` preceded only by non-`Start`, non-`End` items. -/
theorem runFrom_with_terminal (oracle : ParseOracle) (st : CopilotStreamer)
    (evs : List TransportEvent) (hdone : st.done = false)
    (hopen : TransportEvent.openEvent ∉ evs)
    (hterm : ∃ ev ∈ evs, isTerminalFrame oracle ev = true) :
    ∃ mid e, runFrom oracle st evs = mid ++ [.ok (.eventEnd e)] ∧
      ∀ item ∈ mid, item.isStart = false ∧ item.isEnd = false := by
  induction evs generalizing st with
  | nil => simp at hterm
  | cons ev rest ih =>
    have hopen' : TransportEvent.openEvent ∉ rest := fun hm => hopen (List.mem_cons_of_mem _ hm)
    have hne : ev ≠ TransportEvent.openEvent := fun he => hopen (he ▸ List.mem_cons_self _ _)
    obtain ⟨hd, hendemit, hnoend, hstart⟩ := processEvent_classify oracle st ev hdone
    cases hevterm : isTerminalFrame oracle ev with
    | true =>
      obtain ⟨e, he⟩ := hendemit hevterm
      cases hpe : processEvent oracle st ev with
      | mk st' out =>
        rw [hpe] at he hd
        have hst' : st'.done = true := by simpa [hevterm] using hd
        refine ⟨[], e, ?_, by simp⟩
        simp only [runFrom, hdone, Bool.false_eq_true, if_false]
        rw [hpe]
        cases he
        simp [runFrom_done oracle st' rest hst']
    | false =>
      have hterm' : ∃ e ∈ rest, isTerminalFrame oracle e = true := by
        rcases hterm with ⟨t, hmem, ht⟩
        rcases List.mem_cons.mp hmem with rfl | hm
        · rw [hevterm] at ht; cases ht
        · exact ⟨t, hm, ht⟩
      cases hpe : processEvent oracle st ev with
      | mk st' out =>
        rw [hpe] at hd hnoend hstart
        have hst' : st'.done = false := by simpa [hevterm] using hd
        obtain ⟨mid, e, hrun, hmid⟩ := ih st' hst' hopen' hterm'
        cases out with
        | none =>
          refine ⟨mid, e, ?_, hmid⟩
          simp only [runFrom, hdone, Bool.false_eq_true, if_false]
          rw [hpe]
          exact hrun
        | some it =>
          refine ⟨it :: mid, e, ?_, ?_⟩
          · simp only [runFrom, hdone, Bool.false_eq_true, if_false]
            rw [hpe]
            show it :: runFrom oracle st' rest = it :: (mid ++ [.ok (.eventEnd e)])
            rw [hrun]
          · intro item hitem
            rcases List.mem_cons.mp hitem with rfl | hm
            · refine ⟨?_, hnoend hevterm item rfl⟩
              cases hs : item.isStart
              · rfl
              · exact absurd (hstart item rfl hs) hne
            · exact hmid item hm

/-- C1 (amended): assuming the transport delivers exactly one `Open`, as its
first event, and after it only non-`Open` frames at least one of which is
terminal (a `"[DONE]"` marker or a frame whose first choice reaches the
`finish_reason` arm), the produced item sequence starts with the single
`Start`, ends with the single `End`, and once the state is `Done` no further
poll yields any item.  (The claim as frozen, quantified over *every* transport
sequence, is false: see the counterexample.) -/
theorem c1_one_start_one_end_amended (oracle : ParseOracle) (options : StreamerOptions)
    (rest : List TransportEvent)
    (hopen : TransportEvent.openEvent ∉ rest)
    (hterm : ∃ ev ∈ rest, isTerminalFrame oracle ev = true) :
    (∃ mid e,
      run oracle options (.openEvent :: rest)
          = .ok .start :: (mid ++ [.ok (.eventEnd e)]) ∧
      (run oracle options (.openEvent :: rest)).countP StreamItem.isStart = 1 ∧
      (run oracle options (.openEvent :: rest)).countP StreamItem.isEnd = 1 ∧
      (run oracle options (.openEvent :: rest)).getLast? = some (.ok (.eventEnd e))) ∧
    (∀ st evs, st.done = true → runFrom oracle st evs = []) := by
  have hstep : run oracle options (.openEvent :: rest)
      = .ok .start :: runFrom oracle (initStreamer options) rest := by
    simp [run, runFrom, processEvent, initStreamer]
  obtain ⟨mid, e, hrun, hmid⟩ :=
    runFrom_with_terminal oracle (initStreamer options) rest rfl hopen hterm
  have hmidstart : mid.countP StreamItem.isStart = 0 :=
    List.countP_eq_zero.mpr (fun x hx => by simp [(hmid x hx).1])
  have hmidend : mid.countP StreamItem.isEnd = 0 :=
    List.countP_eq_zero.mpr (fun x hx => by simp [(hmid x hx).2])
  refine ⟨⟨mid, e, ?_, ?_, ?_, ?_⟩, fun st evs h => runFrom_done oracle st evs h⟩
  · rw [hstep, hrun]
  · rw [hstep, hrun]
    simp [List.countP_cons, List.countP_append, hmidstart, StreamItem.isStart, StreamItem.isEnd]
  · rw [hstep, hrun]
    simp [List.countP_cons, List.countP_append, hmidend, StreamItem.isStart, StreamItem.isEnd]
  · rw [hstep, hrun, ← List.cons_append, List.getLast?_concat]

/-- C1 (witness): the amended theorem applied to the one-frame transport
`[Open, "[DONE]"]`. -/
theorem c1_one_start_one_end_witness :
    (TransportEvent.openEvent ∉ [TransportEvent.message "[DONE]"]) ∧
    (∃ ev ∈ [TransportEvent.message "[DONE]"], isTerminalFrame trivOracle ev = true) ∧
    ((∃ mid e,
      run trivOracle {} (.openEvent :: [TransportEvent.message "[DONE]"])
          = .ok .start :: (mid ++ [.ok (.eventEnd e)]) ∧
      (run trivOracle {} (.openEvent :: [TransportEvent.message "[DONE]"])).countP
          StreamItem.isStart = 1 ∧
      (run trivOracle {} (.openEvent :: [TransportEvent.message "[DONE]"])).countP
          StreamItem.isEnd = 1 ∧
      (run trivOracle {} (.openEvent :: [TransportEvent.message "[DONE]"])).getLast?
          = some (.ok (.eventEnd e))) ∧
    (∀ st evs, st.done = true → runFrom trivOracle st evs = [])) :=
  ⟨by decide, ⟨TransportEvent.message "[DONE]", by simp, rfl⟩,
    c1_one_start_one_end_amended trivOracle {} [TransportEvent.message "[DONE]"]
      (by decide) ⟨TransportEvent.message "[DONE]", by simp, rfl⟩⟩

/-- C1 (counterexample): the claim as frozen quantifies over every produced
sequence; a transport that emits `Open` twice (as the SSE client does on
reconnection) produces two `Start` events and no `End`, refuting "exactly one
`Start` … exactly one `End`". -/
theorem c1_counterexample :
    run trivOracle {} [TransportEvent.openEvent, TransportEvent.openEvent]
        = [.ok .start, .ok .start] ∧
    (run trivOracle {} [TransportEvent.openEvent, TransportEvent.openEvent]).countP
        StreamItem.isStart = 2 ∧
    (run trivOracle {} [TransportEvent.openEvent, TransportEvent.openEvent]).countP
        StreamItem.isEnd = 0 :=
  ⟨rfl, rfl, rfl⟩

/-- Rust `captureUsage` leaves the tool-call accumulator alone. -/
theorem captureUsage_tool_calls (st : CopilotStreamer) (resp : CopilotStreamResponse) :
    (captureUsage st resp).captured_data.tool_calls = st.captured_data.tool_calls := by
  unfold captureUsage
  split
  · split <;> rfl
  · rfl

/-- Rust `captureContent` leaves the tool-call accumulator alone. -/
theorem captureContent_tool_calls (st : CopilotStreamer) (content : String) :
    (captureContent st content).captured_data.tool_calls = st.captured_data.tool_calls := by
  unfold captureContent
  split <;> rfl

/-- C2 (counterexample): after the malformed frame `"garbage"` surfaces its
decode error, the very next poll still polls the transport and yields the
`"hello"` chunk — refuting "the stream yields no further events on any
subsequent poll". -/
theorem c2_counterexample :
    run streamOracle {} [TransportEvent.message "garbage", TransportEvent.message "hello"]
      = [.err (.parseError "garbage"), .ok (.chunk "Hello")] := rfl

/-- C2 (amended): a frame that fails to deserialize surfaces a decode error
for that poll, but the `done` flag is *not* set — the state is returned
unchanged, so subsequent polls continue to poll the transport and may yield
further events. -/
theorem c2_decode_error_not_fatal (oracle : ParseOracle) (st : CopilotStreamer)
    (data : String) (rest : List TransportEvent)
    (hdone : st.done = false)
    (hnotdone : (rustTrim data == "[DONE]") = false)
    (hparse : oracle.parseResponse data = none) :
    processEvent oracle st (.message data) = (st, some (.err (.parseError data))) ∧
    runFrom oracle st (.message data :: rest)
      = .err (.parseError data) :: runFrom oracle st rest := by
  have hpe : processEvent oracle st (.message data)
      = (st, some (.err (.parseError data))) := by
    simp [processEvent, hnotdone, hparse]
  refine ⟨hpe, ?_⟩
  simp only [runFrom, hdone, Bool.false_eq_true, if_false]
  rw [hpe]

/-- C2 (witness): the amended theorem at the concrete run of the
counterexample. -/
theorem c2_decode_error_not_fatal_witness :
    ((initStreamer {}).done = false) ∧
    ((rustTrim "garbage" == "[DONE]") = false) ∧
    (streamOracle.parseResponse "garbage" = none) ∧
    (processEvent streamOracle (initStreamer {}) (.message "garbage")
        = (initStreamer {}, some (.err (.parseError "garbage"))) ∧
      runFrom streamOracle (initStreamer {})
          (.message "garbage" :: [TransportEvent.message "hello"])
        = .err (.parseError "garbage")
            :: runFrom streamOracle (initStreamer {}) [TransportEvent.message "hello"]) :=
  ⟨rfl, rfl, rfl,
    c2_decode_error_not_fatal streamOracle (initStreamer {}) "garbage"
      [TransportEvent.message "hello"] rfl rfl rfl⟩

/-- C5: with `capture_content` enabled, the frames `["Hello", " world",
finish_reason]` produce `Start`, `Chunk("Hello")`, `Chunk(" world")`,
`End{captured_text_content = some "Hello world"}`; with `capture_content`
disabled, the same `Chunk` events are emitted but
`End.captured_text_content` is `None`. -/
theorem c5_content_capture_concat :
    run streamOracle optsContent
        [.openEvent, .message "hello", .message "world", .message "finish"]
      = [.ok .start, .ok (.chunk "Hello"), .ok (.chunk " world"),
         .ok (.eventEnd { captured_text_content := some "Hello world" })] ∧
    run streamOracle {}
        [.openEvent, .message "hello", .message "world", .message "finish"]
      = [.ok .start, .ok (.chunk "Hello"), .ok (.chunk " world"),
         .ok (.eventEnd {})] :=
  ⟨rfl, rfl⟩

/-- C10: when a parsed frame's first choice has a non-empty content delta,
that poll emits exactly `Chunk(content)` — the same frame's tool-call
fragments and `finish_reason` are never processed: `done` stays `false`, the
tool-call accumulator is untouched, and the run continues with only the
chunk emitted for that frame. -/
theorem c10_content_preempts_rest (oracle : ParseOracle) (st : CopilotStreamer)
    (data : String) (resp : CopilotStreamResponse) (choice : CopilotStreamChoice)
    (content : String) (rest : List TransportEvent)
    (hdone : st.done = false)
    (hnotdone : (rustTrim data == "[DONE]") = false)
    (hparse : oracle.parseResponse data = some resp)
    (hchoice : resp.choices.head? = some choice)
    (hcontent : choice.delta.content = some content)
    (hne : (content == "") = false) :
    processEvent oracle st (.message data)
        = (captureContent (captureUsage st resp) content, some (.ok (.chunk content))) ∧
    (captureContent (captureUsage st resp) content).done = false ∧
    (captureContent (captureUsage st resp) content).captured_data.tool_calls
        = st.captured_data.tool_calls ∧
    runFrom oracle st (.message data :: rest)
        = .ok (.chunk content)
            :: runFrom oracle (captureContent (captureUsage st resp) content) rest := by
  have hpe : processEvent oracle st (.message data)
      = (captureContent (captureUsage st resp) content, some (.ok (.chunk content))) := by
    simp only [processEvent, hnotdone, Bool.false_eq_true, if_false, hparse]
    unfold handleResponse
    rw [hchoice]
    simp only [handleFirstChoice, hcontent, hne, Bool.false_eq_true, if_false]
  refine ⟨hpe, ?_, ?_, ?_⟩
  · rw [captureContent_done, captureUsage_done, hdone]
  · rw [captureContent_tool_calls, captureUsage_tool_calls]
  · simp only [runFrom, hdone, Bool.false_eq_true, if_false]
    rw [hpe]

/-- C10 (witness): a frame whose first choice carries the content `"Hi"`, a
complete tool-call fragment and a finish reason at once; only `Chunk("Hi")`
comes out and neither `done` nor the tool-call accumulator budges. -/
theorem c10_content_preempts_rest_witness :
    ((initStreamer optsAll).done = false) ∧
    ((rustTrim "mixed" == "[DONE]") = false) ∧
    (streamOracle.parseResponse "mixed" = some respMixed) ∧
    (respMixed.choices.head? = some { delta := { content := some "Hi", tool_calls := some [fragFull9] }, finish_reason := some "stop" }) ∧
    (processEvent streamOracle (initStreamer optsAll) (.message "mixed")
        = (captureContent (captureUsage (initStreamer optsAll) respMixed) "Hi",
           some (.ok (.chunk "Hi"))) ∧
      (captureContent (captureUsage (initStreamer optsAll) respMixed) "Hi").done = false ∧
      (captureContent (captureUsage (initStreamer optsAll) respMixed) "Hi").captured_data.tool_calls
          = (initStreamer optsAll).captured_data.tool_calls ∧
      runFrom streamOracle (initStreamer optsAll) (.message "mixed" :: [])
          = .ok (.chunk "Hi")
              :: runFrom streamOracle
                  (captureContent (captureUsage (initStreamer optsAll) respMixed) "Hi") []) :=
  ⟨rfl, rfl, rfl, rfl,
    c10_content_preempts_rest streamOracle (initStreamer optsAll) "mixed" respMixed
      { delta := { content := some "Hi", tool_calls := some [fragFull9] }, finish_reason := some "stop" }
      "Hi" [] rfl rfl rfl rfl rfl rfl⟩

/-- The tool-call scan succeeds exactly when some fragment is complete
(carries both a function name and a call id) — the scan never combines
fields from different fragments. -/
theorem findCompleteToolCall_isSome (pv : String → Option Json)
    (tcs : List CopilotDeltaToolCall) :
    (findCompleteToolCall pv tcs).isSome = tcs.any fragComplete := by
  induction tcs with
  | nil => rfl
  | cons d rest ih =>
    cases hdf : d.function with
    | none => simp [findCompleteToolCall, fragComplete, hdf, ih]
    | some fn =>
      cases hn : fn.name with
      | none => simp [findCompleteToolCall, fragComplete, hdf, hn, ih]
      | some n =>
        cases hi : d.id with
        | none => simp [findCompleteToolCall, fragComplete, hdf, hn, hi, ih]
        | some i => simp [findCompleteToolCall, fragComplete, hdf, hn, hi]

/-- The scan returns the tool call built from the first complete fragment. -/
theorem findCompleteToolCall_append (pv : String → Option Json)
    (pre : List CopilotDeltaToolCall) (dtc : CopilotDeltaToolCall)
    (post : List CopilotDeltaToolCall) (fn : CopilotDeltaFunctionCall)
    (name id : String)
    (hpre : ∀ d ∈ pre, fragComplete d = false)
    (hfn : dtc.function = some fn) (hname : fn.name = some name)
    (hid : dtc.id = some id) :
    findCompleteToolCall pv (pre ++ dtc :: post)
      = some { call_id := id, fn_name := name,
               fn_arguments := (fn.arguments.bind pv).getD Json.null } := by
  induction pre with
  | nil =>
    simp only [List.nil_append, findCompleteToolCall, hfn, hname, hid]
  | cons d pre ih =>
    have hd := hpre d (List.mem_cons_self _ _)
    have hpre' : ∀ x ∈ pre, fragComplete x = false :=
      fun x hx => hpre x (List.mem_cons_of_mem _ hx)
    rw [List.cons_append]
    cases hdf : d.function with
    | none =>
      simp only [findCompleteToolCall, hdf]
      exact ih hpre'
    | some fn' =>
      unfold fragComplete at hd
      rw [hdf] at hd
      cases hn : fn'.name with
      | none =>
        simp only [findCompleteToolCall, hdf, hn]
        exact ih hpre'
      | some n =>
        cases hi : d.id with
        | none =>
          simp only [findCompleteToolCall, hdf, hn, hi]
          exact ih hpre'
        | some i => simp [hn, hi] at hd

/-- C4 (counterexample): fragments `{id:"call_1"}`, then
`{function:{name:"search"}}`, then `{function:{arguments:…}}` arriving in
three separate frames for the same logical call produce **no** event at all —
the streamer keys nothing by call id and accumulates nothing across frames,
so the claimed reconstruction into a single complete `ToolCallChunk` never
happens. -/
theorem c4_no_cross_frame_accumulation_counterexample :
    run streamOracle { capture_tool_calls := true }
        [.message "frag-id", .message "frag-name", .message "frag-args"] = [] := rfl

/-- C4 (amended): a `ToolCallChunk` is produced from a frame exactly when a
*single* fragment of that frame carries both a function name and a call id
(`fragComplete`); there is no accumulation across frames.  The chunk is built
from the first such fragment as
`ToolCall{call_id, fn_name, fn_arguments := parsed arguments, defaulting to
JSON null}`. -/
theorem c4_tool_call_same_fragment_only (oracle : ParseOracle) (st : CopilotStreamer)
    (data : String) (resp : CopilotStreamResponse) (choice : CopilotStreamChoice)
    (_hdone : st.done = false)
    (hnotdone : (rustTrim data == "[DONE]") = false)
    (hparse : oracle.parseResponse data = some resp)
    (hchoice : resp.choices.head? = some choice)
    (hcontent : choice.delta.content = none) :
    (∀ tcs, (findCompleteToolCall oracle.parseValue tcs).isSome = tcs.any fragComplete) ∧
    (∀ pre dtc post fn name id,
      choice.delta.tool_calls = some (pre ++ dtc :: post) →
      (∀ d ∈ pre, fragComplete d = false) →
      dtc.function = some fn → fn.name = some name → dtc.id = some id →
      processEvent oracle st (.message data)
        = (captureToolCall (captureUsage st resp)
             { call_id := id, fn_name := name,
               fn_arguments := (fn.arguments.bind oracle.parseValue).getD Json.null },
           some (.ok (.toolCallChunk
             { call_id := id, fn_name := name,
               fn_arguments := (fn.arguments.bind oracle.parseValue).getD Json.null })))) := by
  refine ⟨findCompleteToolCall_isSome oracle.parseValue, ?_⟩
  intro pre dtc post fn name id htc hpre hfn hname hid
  simp only [processEvent, hnotdone, Bool.false_eq_true, if_false, hparse]
  unfold handleResponse
  rw [hchoice]
  simp only [handleFirstChoice, hcontent]
  unfold handleDelta
  rw [htc]
  simp only [Option.some_bind,
    findCompleteToolCall_append oracle.parseValue pre dtc post fn name id hpre hfn hname hid]

/-- C4 (witness): the amended theorem at a frame whose single fragment
carries id, name and (unparseable) arguments at once. -/
theorem c4_tool_call_same_fragment_only_witness :
    ((initStreamer optsAll).done = false) ∧
    ((rustTrim "frag-full" == "[DONE]") = false) ∧
    (streamOracle.parseResponse "frag-full" = some (respOfFragment fragFull1)) ∧
    ((respOfFragment fragFull1).choices.head?
        = some { delta := { tool_calls := some [fragFull1] } }) ∧
    (processEvent streamOracle (initStreamer optsAll) (.message "frag-full")
        = (captureToolCall (captureUsage (initStreamer optsAll) (respOfFragment fragFull1))
             { call_id := "call_1", fn_name := "search", fn_arguments := Json.null },
           some (.ok (.toolCallChunk
             { call_id := "call_1", fn_name := "search", fn_arguments := Json.null })))) := by
  refine ⟨rfl, rfl, rfl, rfl, ?_⟩
  have h := (c4_tool_call_same_fragment_only streamOracle (initStreamer optsAll)
      "frag-full" (respOfFragment fragFull1)
      { delta := { tool_calls := some [fragFull1] } }
      rfl rfl rfl rfl rfl).2
      [] fragFull1 [] { name := some "search", arguments := some "not-json" }
      "search" "call_1" rfl (by simp) rfl rfl rfl
  exact h

/-- C8 (counterexample): a tool-call fragment whose argument string is not
valid JSON produces `fn_arguments = Value::Null` (`unwrap_or_default` on
`serde_json::Value`), not the empty JSON object the claim states. -/
theorem c8_invalid_arguments_null_counterexample :
    run streamOracle {} [.message "frag-full"]
        = [.ok (.toolCallChunk
            { call_id := "call_1", fn_name := "search", fn_arguments := Json.null })] ∧
    Json.null ≠ Json.obj [] :=
  ⟨rfl, by simp⟩

/-- C8 (amended): when the fragment's argument string fails to parse as JSON
(or is absent), the emitted `ToolCallChunk` carries `fn_arguments = null`
(the `Default` of `serde_json::Value`), rather than an empty object. -/
theorem c8_invalid_arguments_default_null (oracle : ParseOracle) (st : CopilotStreamer)
    (data : String) (resp : CopilotStreamResponse) (choice : CopilotStreamChoice)
    (dtc : CopilotDeltaToolCall) (fn : CopilotDeltaFunctionCall)
    (name id args : String)
    (hdone : st.done = false)
    (hnotdone : (rustTrim data == "[DONE]") = false)
    (hparse : oracle.parseResponse data = some resp)
    (hchoice : resp.choices.head? = some choice)
    (hcontent : choice.delta.content = none)
    (htc : choice.delta.tool_calls = some [dtc])
    (hfn : dtc.function = some fn) (hname : fn.name = some name)
    (hid : dtc.id = some id) (hargs : fn.arguments = some args)
    (hbad : oracle.parseValue args = none) :
    processEvent oracle st (.message data)
      = (captureToolCall (captureUsage st resp)
           { call_id := id, fn_name := name, fn_arguments := Json.null },
         some (.ok (.toolCallChunk
           { call_id := id, fn_name := name, fn_arguments := Json.null }))) := by
  have h := (c4_tool_call_same_fragment_only oracle st data resp choice
      hdone hnotdone hparse hchoice hcontent).2 [] dtc [] fn name id
      (by simpa using htc) (by simp) hfn hname hid
  rw [hargs] at h
  simpa [hbad] using h

/-- C8 (witness): the amended theorem at the concrete `"frag-full"` frame
whose argument string `"not-json"` does not parse. -/
theorem c8_invalid_arguments_default_null_witness :
    ((initStreamer {}).done = false) ∧
    (streamOracle.parseValue "not-json" = none) ∧
    (processEvent streamOracle (initStreamer {}) (.message "frag-full")
      = (captureToolCall (captureUsage (initStreamer {}) (respOfFragment fragFull1))
           { call_id := "call_1", fn_name := "search", fn_arguments := Json.null },
         some (.ok (.toolCallChunk
           { call_id := "call_1", fn_name := "search", fn_arguments := Json.null })))) :=
  ⟨rfl, rfl,
    c8_invalid_arguments_default_null streamOracle (initStreamer {}) "frag-full"
      (respOfFragment fragFull1) { delta := { tool_calls := some [fragFull1] } }
      fragFull1 { name := some "search", arguments := some "not-json" }
      "search" "call_1" "not-json" rfl rfl rfl rfl rfl rfl rfl rfl rfl rfl rfl⟩

/-- C6 (counterexample): the claim says *every* capability query consults the
other providers' tables in priority order before the generic default.
Tool-call support does not: for the unrecognized model id `"mystery-model-1"`
queried under `Groq`, the code answers `true` (catch-all arm), while the
claimed chain semantics would consult OpenAI's tool-call table first and
answer `false`. -/
theorem c6_tool_calls_skip_chain_counterexample :
    supports_tool_calls .Groq "mystery-model-1" = true ∧
    supports_tool_calls_chainSpec .Groq "mystery-model-1" = false :=
  ⟨rfl, rfl⟩

/-- C6 (amended): the capability queries `infer_token_limits`,
`supports_streaming`, `supports_json_mode`, `supports_reasoning`,
`infer_input_modalities`, `infer_output_modalities` and
`infer_reasoning_efforts` resolve exactly by the spec's chain semantics
(queried provider's table, then each other provider in the fixed
`PROVIDER_PRIORITY` order skipping the queried one, then the generic OpenAI
default); `supports_tool_calls` alone does not follow that chain. -/
theorem c6_capability_fallback_chain (kind : AdapterKind) (model_id : String) :
    infer_token_limits kind model_id
      = fallbackChainSpec provider_token_limits kind model_id
          (openai_infer_token_limits model_id) ∧
    supports_streaming kind model_id
      = fallbackChainSpec provider_supports_streaming kind model_id
          (openai_supports_streaming model_id) ∧
    supports_json_mode kind model_id
      = fallbackChainSpec provider_supports_json_mode kind model_id
          (openai_supports_json_mode model_id) ∧
    supports_reasoning kind model_id
      = fallbackChainSpec provider_supports_reasoning kind model_id
          (openai_supports_reasoning model_id) ∧
    infer_input_modalities kind model_id
      = fallbackChainSpec provider_input_modalities kind model_id
          (openai_infer_input_modalities model_id) ∧
    infer_output_modalities kind model_id
      = fallbackChainSpec provider_output_modalities kind model_id
          (openai_infer_output_modalities model_id) ∧
    infer_reasoning_efforts kind model_id
      = fallbackChainSpec provider_reasoning_efforts kind model_id
          (openai_infer_reasoning_efforts model_id) ∧
    ¬ (∀ k id, supports_tool_calls k id = supports_tool_calls_chainSpec k id) := by
  refine ⟨provider_fallback_eq_chainSpec .., provider_fallback_eq_chainSpec ..,
    provider_fallback_eq_chainSpec .., provider_fallback_eq_chainSpec ..,
    provider_fallback_eq_chainSpec .., provider_fallback_eq_chainSpec ..,
    provider_fallback_eq_chainSpec .., ?_⟩
  intro h
  have := h .Groq "mystery-model-1"
  simp [supports_tool_calls, supports_tool_calls_chainSpec, fallbackChainSpec,
    PROVIDER_PRIORITY, toolCallRuleTable, openai_supports_tool_calls,
    strStartsWith, List.isPrefixOf] at this

/-- C7: every capability-resolution function is total and deterministic.  In
this embedding each is a plain function of `(provider, model_id)` (so two
invocations at the same arguments are definitionally equal), and this theorem
states that each result is covered: it is either a value produced by some
provider's rule table or the generic default — never an error. -/
theorem c7_capability_resolution_total (kind : AdapterKind) (model_id : String) :
    ((∃ k, provider_token_limits k model_id = some (infer_token_limits kind model_id))
        ∨ infer_token_limits kind model_id = openai_infer_token_limits model_id) ∧
    ((∃ k, provider_supports_streaming k model_id = some (supports_streaming kind model_id))
        ∨ supports_streaming kind model_id = openai_supports_streaming model_id) ∧
    ((∃ k, provider_supports_json_mode k model_id = some (supports_json_mode kind model_id))
        ∨ supports_json_mode kind model_id = openai_supports_json_mode model_id) ∧
    ((∃ k, provider_supports_reasoning k model_id = some (supports_reasoning kind model_id))
        ∨ supports_reasoning kind model_id = openai_supports_reasoning model_id) ∧
    ((∃ k, provider_input_modalities k model_id = some (infer_input_modalities kind model_id))
        ∨ infer_input_modalities kind model_id = openai_infer_input_modalities model_id) ∧
    ((∃ k, provider_output_modalities k model_id = some (infer_output_modalities kind model_id))
        ∨ infer_output_modalities kind model_id = openai_infer_output_modalities model_id) ∧
    ((∃ k, provider_reasoning_efforts k model_id = some (infer_reasoning_efforts kind model_id))
        ∨ infer_reasoning_efforts kind model_id = openai_infer_reasoning_efforts model_id) ∧
    ((∃ k, toolCallRuleTable k model_id = some (supports_tool_calls kind model_id))
        ∨ supports_tool_calls kind model_id = true) := by
  refine ⟨provider_fallback_total .., provider_fallback_total ..,
    provider_fallback_total .., provider_fallback_total ..,
    provider_fallback_total .., provider_fallback_total ..,
    provider_fallback_total .., ?_⟩
  cases kind with
  | OpenAI => exact .inl ⟨.OpenAI, rfl⟩
  | Cohere => exact .inl ⟨.Cohere, rfl⟩
  | DeepSeek => exact .inl ⟨.DeepSeek, rfl⟩
  | _ => exact .inr rfl

/-- C3 (counterexample): `OpenAIAdapter::all_models` given a well-formed call
whose listing response lacks the `data` array propagates the JSON-shape error
to the caller — it does not return the static model table. -/
theorem c3_openai_no_fallback_counterexample :
    openai_all_models .OpenAI (.ok "key") (.ok (Json.obj [("object", Json.str "list")]))
      = .error (.jsonMissing "data") := rfl

/-- C3 (amended): only DeepSeek's `all_models` recovers locally, and only
from JSON-shape failures — a missing/non-array `data`, or a `data` array with
no recognized model id, falls back to the static `MODELS` table.
Authentication and transport failures propagate as errors in both adapters,
and OpenAI's `all_models` additionally propagates a missing `data` key and
returns an empty list (not its static table) for a non-array `data`. -/
theorem c3_all_models_fallback_amended (kind : AdapterKind) (e : GenaiError)
    (msg key : String) (wb : Except String Json) :
    (openai_all_models kind (.error e) wb = .error e) ∧
    (openai_all_models kind (.ok key) (.error msg) = .error (.webAdapterCall kind msg)) ∧
    (deepseek_all_models kind (.error e) wb = .error e) ∧
    (deepseek_all_models kind (.ok key) (.error msg) = .error (.webAdapterCall kind msg)) ∧
    (deepseek_all_models kind (.ok key) (.ok (Json.obj []))
        = .ok (DEEPSEEK_MODELS.map deepseek_build_model)) ∧
    (deepseek_all_models kind (.ok key) (.ok (Json.obj [("data", Json.arr [])]))
        = .ok (DEEPSEEK_MODELS.map deepseek_build_model)) ∧
    (openai_all_models kind (.ok key) (.ok (Json.obj []))
        = .error (.jsonMissing "data")) ∧
    (openai_all_models kind (.ok key) (.ok (Json.obj [("data", Json.str "oops")]))
        = .ok []) :=
  ⟨rfl, rfl, rfl, rfl, rfl, rfl, rfl, rfl⟩

/-- C9 (counterexample): a `ChatRequest` whose only message is a *user*-role
tool call produces an empty payload message list and an empty log trace —
the tool call is silently dropped, neither included in the payload nor logged
as a contract deviation. -/
theorem c9_user_tool_call_dropped_counterexample :
    into_openai_request_parts (fun _ => "") { messages := [c9UserToolCallMsg] }
      = ({ messages := [], tools := none }, []) := rfl

/-- C9 (amended): the OpenAI request builder includes assistant-role tool
calls (as a `tool_calls` message) and tool-role tool responses (one `tool`
message each), but tool calls under the user role and tool responses under
the assistant role are silently dropped — they contribute no payload message
and the log trace stays empty. -/
theorem c9_tool_content_framing_amended (render : Json → String)
    (tcs : List ToolCall) (trs : List ToolResponse) :
    (into_openai_request_parts render { messages := [{ role := .assistant, content := .toolCalls tcs }] }
      = ({ messages := [Json.obj [("role", .str "assistant"),
            ("tool_calls", Json.arr (tcs.map (toolCallJson render))),
            ("content", .str "")]], tools := none }, [])) ∧
    (into_openai_request_parts render { messages := [{ role := .tool, content := .toolResponses trs }] }
      = ({ messages := trs.map (fun tool_response =>
            Json.obj [("role", .str "tool"), ("content", .str tool_response.content),
                      ("tool_call_id", .str tool_response.call_id)]), tools := none }, [])) ∧
    (into_openai_request_parts render { messages := [{ role := .user, content := .toolCalls tcs }] }
      = ({ messages := [], tools := none }, [])) ∧
    (into_openai_request_parts render { messages := [{ role := .assistant, content := .toolResponses trs }] }
      = ({ messages := [], tools := none }, [])) := by
  refine ⟨rfl, ?_, rfl, rfl⟩
  simp [into_openai_request_parts, messageJson]

end RustGenai
